import Mathlib

/-!
Verification development for the game-state engine of a basketball
play-by-play manager (a single-page web application).

The engine is shallowly embedded below:
 - the court-zone classifier (`CourtZoneDetector.detectZone`) over exact
   rational coordinates; the source compares `Math.hypot` distances against
   nonnegative radii, which is equivalent to comparing squared distances,
   so `distSq` is used to keep the embedding exact;
 - the mutable application state (`App`: admin capability, the current game
   object, the undo stack, and the two interval handles modelled as the
   Booleans `clockRunning` / `shotClockRunning`);
 - the stat aggregator (`handleShotAction`, `handleStatAction`,
   `handleNewCourtAction`, `recordQuickStat`, `addScore`,
   `adjustTeamStat` / `applyStatAdjustment`);
 - the undo ledger (`addToUndoStack`, `undoLastAction`);
 - the clock subsystem (`toggleGameClock`, `resumeGame`, `pauseGame`,
   `handlePeriodEnd`, `endGame`, and the one-second interval callbacks
   `gameClockTick` / `shotClockTick`).

DOM updates, SVG rendering, dialogs and localStorage persistence are
presentation and transport collaborators with no effect on the engine
state; they are not modelled.  Wall-clock timestamps, the floating-point
`distance` string and the raw SVG `location` stored on an action record are
presentation-only fields and are likewise omitted; entry ids, generated in
the source from `Date.now()` plus a random suffix, are taken as externally
supplied strings.  Confirmation dialogs (SweetAlert) are modelled as
confirmed.
-/

/-! ### JavaScript string primitives

The source parses action codes with `String.prototype.split('-')`,
`includes` and `startsWith`.  They are embedded structurally over the
character list of a `String` so that every definition evaluates by
`decide`/`rfl`.
-/

/-- `sᵖ.startsWith pat` on character lists. -/
def listStartsWith : List Char → List Char → Bool
  | _, [] => true
  | [], _ :: _ => false
  | c :: cs, p :: ps => c = p && listStartsWith cs ps

/-- `s.includes pat` on character lists. -/
def listContainsSub : List Char → List Char → Bool
  | [], pat => pat.isEmpty
  | c :: rest, pat => listStartsWith (c :: rest) pat || listContainsSub rest pat

/-- JavaScript `s.includes(pat)` (for the nonempty patterns the source uses). -/
def strContains (s pat : String) : Bool := listContainsSub s.data pat.data

/-- JavaScript `s.startsWith(pat)`. -/
def jsStartsWith (s pat : String) : Bool := listStartsWith s.data pat.data

/-- JavaScript `s.split(sep)` for a one-character separator (the source only
splits on `'-'`). -/
def splitOnChar (sep : Char) : List Char → List (List Char)
  | [] => [[]]
  | c :: cs =>
    let r := splitOnChar sep cs
    if c = sep then [] :: r
    else
      match r with
      | [] => [[c]]
      | h :: t => (c :: h) :: t

/-- The separator of action codes such as `make2-layup`. -/
def dashChar : Char := '-'

/-- `act.split('-')` as a list of strings. -/
def jsSplitDash (s : String) : List String :=
  (splitOnChar dashChar s.data).map (fun l => String.mk l)

/-! ### Court geometry (`FIBA_DIMS` / `NBA_DIMS` and `CourtZoneDetector`)

Only the fields read by `CourtZoneDetector` are kept; the purely pictorial
fields (`backboardY`, `halfCourtY`, `keyWidth`, `ftCircleRadius`,
`paintColor`, `height`, the unit factors) drive SVG drawing only. -/

structure CourtDims where
  width : ℚ
  basketX : ℚ
  basketY : ℚ
  baselineY : ℚ
  keyLeftX : ℚ
  keyRightX : ℚ
  keyHeight : ℚ
  restrictedRadius : ℚ
  threePointRadius : ℚ
  threePointLineX : ℚ
  threePointY : ℚ
  logoShotStartY : ℚ
deriving DecidableEq, Repr

def FIBA_DIMS : CourtDims :=
  { width := 1500, basketX := 750, basketY := 157.5, baselineY := 0,
    keyLeftX := 505, keyRightX := 995, keyHeight := 580,
    restrictedRadius := 125, threePointRadius := 675,
    threePointLineX := 90, threePointY := 299.1, logoShotStartY := 1100 }

def NBA_DIMS : CourtDims :=
  { width := 500, basketX := 250, basketY := 52.5, baselineY := 0,
    keyLeftX := 170, keyRightX := 330, keyHeight := 190,
    restrictedRadius := 40, threePointRadius := 237.5,
    threePointLineX := 30, threePointY := 140, logoShotStartY := 380 }

/-- The symbolic zone names returned by `detectZone` (the human-readable
`details` strings are display text and are dropped). -/
inductive Zone where
  | freeThrow
  | paint
  | logoShot
  | cornerThree
  | threePoint
  | midRange
deriving DecidableEq, Repr

/-- Squared Euclidean distance from the basket.  The source computes
`Math.hypot(x - basketX, y - basketY)` and compares it with the radii; with
nonnegative radii `hypot d ≤ r ↔ distSq ≤ r²` and `hypot d > r ↔ distSq > r²`,
so the embedding compares squares and stays in ℚ. -/
def distSq (c : CourtDims) (x y : ℚ) : ℚ :=
  (x - c.basketX) ^ 2 + (y - c.basketY) ^ 2

def isInPaint (c : CourtDims) (x y : ℚ) : Bool :=
  decide (c.keyLeftX ≤ x) && decide (x ≤ c.keyRightX) &&
  decide (c.baselineY ≤ y) && decide (y ≤ c.keyHeight)

def isCornerThree (c : CourtDims) (x y : ℚ) : Bool :=
  decide (y ≤ c.threePointY) &&
  (decide (x < c.threePointLineX) || decide (c.width - c.threePointLineX < x))

def isAtFreeThrowLine (c : CourtDims) (x y : ℚ) : Bool :=
  decide (c.keyHeight - 20 < y) && decide (y < c.keyHeight + 20) &&
  decide (c.keyLeftX < x) && decide (x < c.keyRightX)

/-- `CourtZoneDetector.detectZone`. -/
def detectZone (c : CourtDims) (x y : ℚ) : Zone :=
  if isAtFreeThrowLine c x y then Zone.freeThrow
  else if distSq c x y ≤ c.restrictedRadius ^ 2 then Zone.paint
  else if isInPaint c x y then Zone.paint
  else if c.logoShotStartY < y then Zone.logoShot
  else if isCornerThree c x y then Zone.cornerThree
  else if c.threePointRadius ^ 2 < distSq c x y then Zone.threePoint
  else Zone.midRange

/-- C8: any point past the logo-shot threshold that is outside the free-throw
band, the restricted area and the paint box classifies as `logo-shot`,
whatever its distance from the basket: the logo test comes before the
corner-three and three-point tests. -/
theorem c8_logo_zone (c : CourtDims) (x y : ℚ)
    (hLogo : c.logoShotStartY < y)
    (hFT : isAtFreeThrowLine c x y = false)
    (hRA : c.restrictedRadius ^ 2 < distSq c x y)
    (hPaint : isInPaint c x y = false) :
    detectZone c x y = Zone.logoShot := by
  unfold detectZone
  rw [hFT, if_neg (by simp), if_neg (not_le.mpr hRA), hPaint,
    if_neg (by simp), if_pos hLogo]

/-- C8 witness: the centre-court point `(750, 1200)` of the FIBA geometry is
past the logo threshold and beyond the three-point radius, and classifies as
`logo-shot`. -/
theorem c8_logo_zone_witness :
    (750 : ℚ) = FIBA_DIMS.basketX ∧
    FIBA_DIMS.logoShotStartY < (1200 : ℚ) ∧
    isAtFreeThrowLine FIBA_DIMS 750 1200 = false ∧
    FIBA_DIMS.restrictedRadius ^ 2 < distSq FIBA_DIMS 750 1200 ∧
    isInPaint FIBA_DIMS 750 1200 = false ∧
    FIBA_DIMS.threePointRadius ^ 2 < distSq FIBA_DIMS 750 1200 ∧
    detectZone FIBA_DIMS 750 1200 = Zone.logoShot := by
  refine ⟨by norm_num [FIBA_DIMS], by norm_num [FIBA_DIMS],
    by norm_num [isAtFreeThrowLine, FIBA_DIMS],
    by norm_num [distSq, FIBA_DIMS],
    by norm_num [isInPaint, FIBA_DIMS],
    by norm_num [distSq, FIBA_DIMS], ?_⟩
  exact c8_logo_zone FIBA_DIMS 750 1200 (by norm_num [FIBA_DIMS])
    (by norm_num [isAtFreeThrowLine, FIBA_DIMS])
    (by norm_num [distSq, FIBA_DIMS])
    (by norm_num [isInPaint, FIBA_DIMS])

/-! ### String constants of the engine

Action codes, stat types and status words are kept as named `String`
constants so the embedded functions compare them exactly as the source
compares its string literals. -/

def strMake : String := "make"
def strMiss : String := "miss"
def strShot : String := "shot"
def strFt : String := "ft"
def str3PT : String := "3PT"
def strLogo : String := "logo"
def strRebound : String := "rebound"
def strAssist : String := "assist"
def strBlock : String := "block"
def strSteal : String := "steal"
def strTurnover : String := "turnover"
def strFg2 : String := "fg2"
def strFg3 : String := "fg3"
def strFoul : String := "foul"
def strTimeout : String := "timeout"
def strPlus : String := "+"
def strQuarters : String := "quarters"
def strQuickStat : String := "quickStat"
def strTeamStatAdjustment : String := "teamStatAdjustment"
def strUndefined : String := "undefined"
def strEmpty : String := ""
def str1 : String := "1"
def str2 : String := "2"
def str3 : String := "3"

/-! ### Data model -/

/-- A team side, the `'home' | 'away'` strings of the source. -/
inductive Team where
  | home
  | away
deriving DecidableEq, Repr

/-- A `{home: _, away: _}` record. -/
structure TeamPair (α : Type) where
  home : α
  away : α
deriving DecidableEq, Repr

def TeamPair.get {α : Type} (p : TeamPair α) : Team → α
  | Team.home => p.home
  | Team.away => p.away

def TeamPair.set {α : Type} (p : TeamPair α) : Team → α → TeamPair α
  | Team.home, v => { p with home := v }
  | Team.away, v => { p with away := v }

/-- Session status strings. -/
inductive Status where
  | setup
  | ready
  | live
  | paused
  | final
deriving DecidableEq, Repr

/-- A `{made, attempted}` counter pair. -/
structure MadeAttempted where
  made : Nat
  attempted : Nat
deriving DecidableEq, Repr

/-- The per-player aggregate created by `addPlayer`. -/
structure PlayerStats where
  points : Nat
  rebounds : Nat
  assists : Nat
  fouls : Nat
  steals : Nat
  blocks : Nat
  turnovers : Nat
  fieldGoals : MadeAttempted
  threePointers : MadeAttempted
  freeThrows : MadeAttempted
deriving DecidableEq, Repr

/-- The zeroed record `addPlayer` installs for a new player. -/
def initialPlayerStats : PlayerStats :=
  { points := 0, rebounds := 0, assists := 0, fouls := 0, steals := 0,
    blocks := 0, turnovers := 0,
    fieldGoals := { made := 0, attempted := 0 },
    threePointers := { made := 0, attempted := 0 },
    freeThrows := { made := 0, attempted := 0 } }

/-- `currentGame.gameState`.  The two clocks are `Int` so that the
no-negative-clock property is meaningful. -/
structure GameState where
  period : Nat
  gameTime : Int
  shotClock : Int
  scores : TeamPair Nat
  fouls : TeamPair Nat
  timeouts : TeamPair Nat
deriving DecidableEq, Repr

/-- `currentGame.settings`.  `gameFormat` stays a string, as in the source
(`'quarters'` or `'halves'`); `periodDuration` is in minutes. -/
structure Settings where
  gameFormat : String
  periodDuration : Nat
  timeoutsPerTeam : Nat
  foulLimit : Nat
  shotClockEnabled : Bool
  shotClockTime : Nat
deriving DecidableEq, Repr

/-- `currentGame.analytics`. -/
structure Analytics where
  totalShots : Nat
  madeShots : Nat
  threePointAttempts : Nat
  threePointMakes : Nat
  totalActions : Nat
deriving DecidableEq, Repr

/-- A roster entry (the `position` string is display-only and omitted). -/
structure Player where
  id : String
  number : Nat
  name : String
deriving DecidableEq, Repr

/-- One team record (`color` is display-only and omitted). -/
structure TeamInfo where
  name : String
  players : List Player
deriving DecidableEq, Repr

/-- An action record (`statEntry` of `handleNewCourtAction`, or the quick-stat
`action` object).  Court entries populate `action`/`result`/`points`/`shotType`
(`type` is `"shot"` for shots and the raw code otherwise); quick-stat entries
populate `statType`/`points` with `type := "quickStat"`.  The fields a path
does not set are `none`, like the missing properties of the source's object
literals.  `location`, `distance` and `timestamp` are presentation-only and
omitted. -/
structure StatEntry where
  id : String
  playerId : String
  playerNumber : Nat
  playerName : String
  team : Option Team
  action : Option String
  statType : Option String
  type : String
  result : Option String
  points : Option Nat
  shotType : Option String
  period : Nat
  gameClock : String
deriving DecidableEq, Repr

/-- One line of the play-by-play feed (the wall-clock `timestamp` is
omitted). -/
structure PlayByPlayEvent where
  message : String
  time : String
  period : Nat
deriving DecidableEq, Repr

/-- The `action` stored in an undo entry: either a court / quick-stat record,
or the `{id, type: 'teamStatAdjustment', team, stat, oldValue, newValue}`
object of `applyStatAdjustment`. -/
inductive UndoableAction where
  | entry (e : StatEntry)
  | teamAdj (id : String) (team : Team) (isFouls : Bool) (oldValue newValue : Nat)
deriving DecidableEq, Repr

def UndoableAction.aId : UndoableAction → String
  | UndoableAction.entry e => e.id
  | UndoableAction.teamAdj i _ _ _ _ => i

/-- The per-player stats map `currentGame.stats`, keyed by player id. -/
abbrev StatsMap : Type := List (String × PlayerStats)

/-- `currentGame.stats[pid]`. -/
def statsGet : StatsMap → String → Option PlayerStats
  | [], _ => none
  | kv :: rest, pid => if kv.1 == pid then some kv.2 else statsGet rest pid

/-- Writing back an updated record under an existing key.  The source mutates
the record in place through the map's reference; the embedding replaces the
first entry with that key — JavaScript objects hold each key once, so the
two agree. -/
def statsSet : StatsMap → String → PlayerStats → StatsMap
  | [], _, _ => []
  | kv :: rest, pid, v =>
    if kv.1 == pid then (pid, v) :: rest else kv :: statsSet rest pid v

/-- An undo entry: the action together with the three aggregate snapshots
taken by `addToUndoStack`. -/
structure UndoEntry where
  action : UndoableAction
  gameStateBefore : GameState
  statsBefore : StatsMap
  analyticsBefore : Analytics
deriving DecidableEq, Repr

/-- `currentGame`.  Identity fields (`code`, `name`, `adminPassword`,
`type`, `created`, `lastUpdated`) take no part in the engine logic and are
omitted. -/
structure Game where
  status : Status
  settings : Settings
  teams : TeamPair TeamInfo
  gameState : GameState
  stats : StatsMap
  shots : List StatEntry
  playByPlay : List PlayByPlayEvent
  analytics : Analytics
deriving DecidableEq, Repr

/-- The manager state around the current game: the admin capability, the
undo stack of `BasketballGameManagerPro`, and the two interval handles
(`clockInterval` / `shotClockInterval`) as Booleans — `true` exactly when the
source holds a live interval id. -/
structure App where
  isAdmin : Bool
  game : Game
  undoStack : List UndoEntry
  clockRunning : Bool
  shotClockRunning : Bool
deriving DecidableEq, Repr

/-! ### Small helpers -/

/-- `secs.toString().padStart(2, '0')`. -/
def pad2 (s : String) : String := if s.length < 2 then "0" ++ s else s

/-- `formatTime(seconds) = "m:ss"`.  The game clock never goes negative
(see the clock-safety theorem), so the embedding reads the seconds through
`Int.toNat`. -/
def formatTime (seconds : Int) : String :=
  let s := seconds.toNat
  toString (s / 60) ++ ":" ++ pad2 (toString (s % 60))

def quarterNames : List String :=
  ["1st Quarter", "2nd Quarter", "3rd Quarter", "4th Quarter"]

def halfNames : List String := ["1st Half", "2nd Half"]

def strOT : String := "OT"

/-- `getPeriodName(period = null)`: `period || current` falls back to the
current period for `null` and for `0` (both falsy in JavaScript). -/
def getPeriodName (g : Game) (period? : Option Nat) : String :=
  let p := match period? with
    | none => g.gameState.period
    | some 0 => g.gameState.period
    | some k => k
  if g.settings.gameFormat = strQuarters then
    (quarterNames.get? (p - 1)).getD (strOT ++ toString (p - 4))
  else
    (halfNames.get? (p - 1)).getD (strOT ++ toString (p - 2))

/-- The `maxPeriods` local of `handlePeriodEnd`. -/
def maxPeriods (g : Game) : Nat :=
  if g.settings.gameFormat = strQuarters then 4 else 2

/-- `getPlayerTeam(playerId)`: scan the home roster, then the away roster. -/
def getPlayerTeam (g : Game) (pid : String) : Option Team :=
  if g.teams.home.players.any (fun p => p.id == pid) then some Team.home
  else if g.teams.away.players.any (fun p => p.id == pid) then some Team.away
  else none

/-- The pair `gameState[stat]` for `stat` = `'fouls'` (`true`) or
`'timeouts'` (`false`) — the only two stat names reaching
`adjustTeamStat`. -/
def getTeamStatPair (gs : GameState) (isFouls : Bool) : TeamPair Nat :=
  if isFouls then gs.fouls else gs.timeouts

def setTeamStatPair (gs : GameState) (isFouls : Bool) (v : TeamPair Nat) : GameState :=
  if isFouls then { gs with fouls := v } else { gs with timeouts := v }

/-! ### Message construction (play-by-play strings) -/

def strHash : String := "#"
def strSpace : String := " "
def strSsuffix : String := "s "
def strParenO : String := " ("
def strParenC : String := ")"
def strGameResumedPre : String := "Game resumed - "
def strGamePaused : String := "Game paused"
def strOvertimeStarted : String := "Overtime period started"
def strEndOfPre : String := "End of "
def strGameOverPre : String := "Game Over! "
def strWins : String := " wins "
def strTiePre : String := "Game ended in a tie "
def strBang : String := "!"
def strScoreDash : String := "-"
def strUndonePre : String := "Undone: "
def strBy : String := " by #"
def strAdded : String := "added"
def strRemoved : String := "removed"
def strMakesFreeThrow : String := "makes free throw"
def strMakes2 : String := "makes 2-pointer"
def strMakes3 : String := "makes 3-pointer"

/-- The shot line `#<number> <name> <result>s <shotType> (<clock>)`. -/
def shotMsg (e : StatEntry) : String :=
  strHash ++ toString e.playerNumber ++ strSpace ++ e.playerName ++ strSpace ++
    e.result.getD strEmpty ++ strSsuffix ++ e.shotType.getD strEmpty ++
    strParenO ++ e.gameClock ++ strParenC

/-- The stat line `#<number> <name> <verb>`. -/
def statMsg (number : Nat) (name verb : String) : String :=
  strHash ++ toString number ++ strSpace ++ name ++ strSpace ++ verb

/-- The `Undone: <type> by #<number> <name>` line.  A team-stat adjustment
carries no player fields, so the template renders the JavaScript `undefined`
for them. -/
def undoneMsg : UndoableAction → String
  | UndoableAction.entry e =>
      strUndonePre ++ e.type ++ strBy ++ toString e.playerNumber ++ strSpace ++ e.playerName
  | UndoableAction.teamAdj _ _ _ _ _ =>
      strUndonePre ++ strTeamStatAdjustment ++ strBy ++ strUndefined ++ strSpace ++ strUndefined

/-- `${teams[team].name} ${statName} ${verb} (${newValue})`. -/
def adjMsg (teamName : String) (isFouls : Bool) (verb : String) (newValue : Nat) : String :=
  teamName ++ strSpace ++ (if isFouls then strFoul else strTimeout) ++ strSpace ++
    verb ++ strParenO ++ toString newValue ++ strParenC

/-- `Game Over! ...` with the winner, or the tie line. -/
def endGameMsg (g : Game) : String :=
  let h := g.gameState.scores.home
  let aw := g.gameState.scores.away
  if aw < h then
    strGameOverPre ++ g.teams.home.name ++ strWins ++ toString h ++ strScoreDash ++ toString aw ++ strBang
  else if h < aw then
    strGameOverPre ++ g.teams.away.name ++ strWins ++ toString aw ++ strScoreDash ++ toString h ++ strBang
  else
    strGameOverPre ++ strTiePre ++ toString h ++ strScoreDash ++ toString aw ++ strBang

/-! ### Core mutating operations -/

/-- `addPlayByPlayEvent(message)`: unshift the event and cap the feed at the
50 most recent lines. -/
def addPlayByPlayEvent (message : String) (a : App) : App :=
  let event : PlayByPlayEvent :=
    { message, time := formatTime a.game.gameState.gameTime,
      period := a.game.gameState.period }
  let feed := event :: a.game.playByPlay
  { a with game := { a.game with
      playByPlay := if 50 < feed.length then feed.take 50 else feed } }

/-- `addScore(team, points)`: bump the team score and `totalActions`.
`recordQuickStat` passes `getPlayerTeam(...)`, which is `null` for a player
on no roster; in that case the source writes to a junk `scores[null]` key,
leaving the home and away scores unchanged, which is what `none` does
here. -/
def addScore (team? : Option Team) (points : Nat) (a : App) : App :=
  let scores :=
    match team? with
    | some t => a.game.gameState.scores.set t (a.game.gameState.scores.get t + points)
    | none => a.game.gameState.scores
  { a with game := { a.game with
      gameState := { a.game.gameState with scores := scores },
      analytics := { a.game.analytics with
        totalActions := a.game.analytics.totalActions + 1 } } }

/-- `resetShotClock()`: admin-gated; `shotClockTime || 24` (a zero setting is
falsy and falls back to 24). -/
def resetShotClock (a : App) : App :=
  if a.isAdmin = false then a
  else
    { a with game := { a.game with gameState := { a.game.gameState with
        shotClock :=
          ((if a.game.settings.shotClockTime = 0 then 24
            else a.game.settings.shotClockTime : Nat) : Int) } } }

/-- `clearIntervals()`: cancel both countdown timers (idempotent). -/
def clearIntervals (a : App) : App :=
  { a with clockRunning := false, shotClockRunning := false }

/-- `pauseGame()`: status `paused`, a feed line, both timers cancelled. -/
def pauseGame (a : App) : App :=
  let a1 := { a with game := { a.game with status := Status.paused } }
  clearIntervals (addPlayByPlayEvent strGamePaused a1)

/-- `resumeGame()`: status `live` unconditionally, a feed line, then the
game-clock interval is installed, and the shot-clock interval when shot-clock
tracking is enabled. -/
def resumeGame (a : App) : App :=
  let a1 := { a with game := { a.game with status := Status.live } }
  let a2 := addPlayByPlayEvent (strGameResumedPre ++ getPeriodName a1.game none) a1
  let a3 := { a2 with clockRunning := true }
  if a3.game.settings.shotClockEnabled then { a3 with shotClockRunning := true } else a3

/-- `toggleGameClock()`: admin-gated; pause when `live`, otherwise resume —
there is no check that the status is `ready` or `paused`. -/
def toggleGameClock (a : App) : App :=
  if a.isAdmin = false then a
  else if a.game.status = Status.live then pauseGame a
  else resumeGame a

/-- `endGame()`: cancel the timers, status `final`, result line. -/
def endGame (a : App) : App :=
  let a1 := { clearIntervals a with game := { a.game with status := Status.final } }
  addPlayByPlayEvent (endGameMsg a1.game) a1

/-- `handlePeriodEnd()`: cancel timers and pause; then advance the period
within regulation, start a 5-minute overtime on a tie, or end the game. -/
def handlePeriodEnd (a : App) : App :=
  let a1 := { clearIntervals a with game := { a.game with status := Status.paused } }
  if a1.game.gameState.period < maxPeriods a1.game then
    let a2 := { a1 with game := { a1.game with gameState := { a1.game.gameState with
        period := a1.game.gameState.period + 1,
        gameTime := ((a1.game.settings.periodDuration * 60 : Nat) : Int) } } }
    addPlayByPlayEvent
      (strEndOfPre ++ getPeriodName a2.game (some (a2.game.gameState.period - 1))) a2
  else if a1.game.gameState.scores.home = a1.game.gameState.scores.away then
    let a2 := { a1 with game := { a1.game with gameState := { a1.game.gameState with
        period := a1.game.gameState.period + 1, gameTime := 300 } } }
    addPlayByPlayEvent strOvertimeStarted a2
  else endGame a1

/-- `nextPeriod()`: admin-gated operator-forced period end (the confirmation
dialog is modelled as confirmed). -/
def nextPeriod (a : App) : App :=
  if a.isAdmin = false then a else handlePeriodEnd a

/-! ### Stat aggregator -/

/-- `handleShotAction(action, stats, team)`: route by shot subtype
(`'3PT'`/`'logo'` → three-pointers, `'ft'` → free throws, anything else →
field goals), bump the analytics shot counters, reset the shot clock on a
make when enabled, and append the play-by-play shot line.  Returns the
updated player record (mutated in place in the source) and the updated
application state. -/
def handleShotAction (e : StatEntry) (st : PlayerStats) (team : Team) (a : App) :
    PlayerStats × App :=
  let isMake : Bool := e.result == some strMake
  let pts := e.points.getD 0
  let r1 : PlayerStats × App :=
    if e.shotType = some str3PT ∨ e.shotType = some strLogo then
      let stA := { st with threePointers :=
        { st.threePointers with attempted := st.threePointers.attempted + 1 } }
      let r0 : PlayerStats × App :=
        if isMake then
          ({ stA with
              threePointers := { stA.threePointers with made := stA.threePointers.made + 1 },
              points := stA.points + pts },
            addScore (some team) pts a)
        else (stA, a)
      let aB := { r0.2 with game := { r0.2.game with analytics :=
        { r0.2.game.analytics with
            threePointAttempts := r0.2.game.analytics.threePointAttempts + 1 } } }
      let aC := if isMake then
          { aB with game := { aB.game with analytics :=
            { aB.game.analytics with
                threePointMakes := aB.game.analytics.threePointMakes + 1 } } }
        else aB
      (r0.1, aC)
    else if e.shotType = some strFt then
      let stA := { st with freeThrows :=
        { st.freeThrows with attempted := st.freeThrows.attempted + 1 } }
      if isMake then
        ({ stA with
            freeThrows := { stA.freeThrows with made := stA.freeThrows.made + 1 },
            points := stA.points + pts },
          addScore (some team) pts a)
      else (stA, a)
    else
      let stA := { st with fieldGoals :=
        { st.fieldGoals with attempted := st.fieldGoals.attempted + 1 } }
      if isMake then
        ({ stA with
            fieldGoals := { stA.fieldGoals with made := stA.fieldGoals.made + 1 },
            points := stA.points + pts },
          addScore (some team) pts a)
      else (stA, a)
  let a2 := { r1.2 with game := { r1.2.game with analytics :=
    { r1.2.game.analytics with totalShots := r1.2.game.analytics.totalShots + 1 } } }
  let a3 := if isMake then
      { a2 with game := { a2.game with analytics :=
        { a2.game.analytics with madeShots := a2.game.analytics.madeShots + 1 } } }
    else a2
  let a4 := if isMake && a3.game.settings.shotClockEnabled then resetShotClock a3 else a3
  (r1.1, addPlayByPlayEvent (shotMsg e) a4)

/-- `handleStatAction(actionType, stats, player)`: `rebound` / `assist` /
`block` bump one counter and log a line; every other code falls through the
switch and changes nothing. -/
def handleStatAction (actionType : String) (st : PlayerStats) (p : Player) (a : App) :
    PlayerStats × App :=
  if actionType = strRebound then
    ({ st with rebounds := st.rebounds + 1 },
      addPlayByPlayEvent (statMsg p.number p.name strRebound) a)
  else if actionType = strAssist then
    ({ st with assists := st.assists + 1 },
      addPlayByPlayEvent (statMsg p.number p.name strAssist) a)
  else if actionType = strBlock then
    ({ st with blocks := st.blocks + 1 },
      addPlayByPlayEvent (statMsg p.number p.name strBlock) a)
  else (st, a)

/-! ### Undo ledger -/

/-- The stack bound `maxUndoStackSize`. -/
def maxUndoStackSize : Nat := 20

/-- `undoStack.push(...)` followed by `shift()` past the bound: append at the
end, evict the oldest entry from the front on overflow. -/
def pushUndo (u : UndoEntry) (stack : List UndoEntry) : List UndoEntry :=
  let stack' := stack ++ [u]
  if maxUndoStackSize < stack'.length then stack'.tail else stack'

/-- `addToUndoStack(action)`: push the action with snapshots of the three
aggregates as they are at the moment of the call (value semantics makes the
JSON deep copies literal copies here). -/
def addToUndoStack (act : UndoableAction) (a : App) : App :=
  let u : UndoEntry :=
    { action := act, gameStateBefore := a.game.gameState,
      statsBefore := a.game.stats, analyticsBefore := a.game.analytics }
  { a with undoStack := pushUndo u a.undoStack }

/-- `undoLastAction()`: no-op without the admin capability or with an empty
stack; otherwise pop the most recent entry, restore the three snapshotted
aggregates wholesale, drop the entry's action from the ledger by id, and log
an `Undone:` line. -/
def undoLastAction (a : App) : App :=
  if a.isAdmin = false ∨ a.undoStack = [] then a
  else
    match a.undoStack.getLast? with
    | none => a
    | some u =>
      let a1 := { a with undoStack := a.undoStack.dropLast }
      let a2 := { a1 with game := { a1.game with
          gameState := u.gameStateBefore,
          stats := u.statsBefore,
          analytics := u.analyticsBefore,
          shots := a1.game.shots.filter (fun s => !(s.id == u.action.aId)) } }
      addPlayByPlayEvent (undoneMsg u.action) a2

/-! ### The court bridge (`handleNewCourtAction`) -/

/-- The outcome segment of an action code: the text before the first `-`. -/
def courtOutcome (act : String) : String := (jsSplitDash act).headD strEmpty

/-- Whether the outcome segment spells a shot
(`outcome.includes('make') || outcome.includes('miss')`). -/
def isShotCode (act : String) : Bool :=
  strContains (courtOutcome act) strMake || strContains (courtOutcome act) strMiss

/-- The embedded point value: `3`, `2`, `1` by the digit in the outcome,
else `0`. -/
def pointsOfOutcome (o : String) : Nat :=
  if strContains o str3 then 3
  else if strContains o str2 then 2
  else if strContains o str1 then 1
  else 0

/-- The subtype segment with the `shotType || 'shot'` fallback (both a
missing segment and an empty one are falsy). -/
def courtShotType (act : String) : String :=
  let raw := ((jsSplitDash act).get? 1).getD strEmpty
  if raw = strEmpty then strShot else raw

/-- The `statEntry` literal of `handleNewCourtAction`, including the shot
fields added when the outcome contains `make`/`miss`. -/
def courtStatEntry (p : Player) (team : Team) (act eid : String) (g : Game) : StatEntry :=
  let base : StatEntry :=
    { id := eid, playerId := p.id, playerNumber := p.number, playerName := p.name,
      team := some team, action := some act, statType := none, type := act,
      result := none, points := none, shotType := none,
      period := g.gameState.period, gameClock := formatTime g.gameState.gameTime }
  if isShotCode act then
    { base with
        type := strShot,
        result := some (if jsStartsWith (courtOutcome act) strMake then strMake else strMiss),
        points := some (pointsOfOutcome (courtOutcome act)),
        shotType := some (courtShotType act) }
  else base

/-- The common tail of `handleNewCourtAction`: write the (in-place mutated)
player record back, `shots.push(statEntry)`, then `addToUndoStack(statEntry)`
— the snapshots are therefore taken after the action has been applied. -/
def finishCourt (p : Player) (entry : StatEntry) (r : PlayerStats × App) : App :=
  let a1 := { r.2 with game := { r.2.game with
      stats := statsSet r.2.game.stats p.id r.1 } }
  let a2 := { a1 with game := { a1.game with shots := a1.game.shots ++ [entry] } }
  addToUndoStack (UndoableAction.entry entry) a2

/-- `handleNewCourtAction({action, location})` for the selected player and
court team.  `none` models the `TypeError` the source throws when it
increments a field of a missing stats record (shot codes, and the
`rebound`/`assist`/`block` cases of `handleStatAction`); players selected
through the UI always have one. -/
def handleNewCourtAction (p? : Option Player) (courtTeam : Team) (act eid : String)
    (a : App) : Option App :=
  match p? with
  | none => some a
  | some p =>
    let st? := statsGet a.game.stats p.id
    let entry := courtStatEntry p courtTeam act eid a.game
    if isShotCode act then
      match st? with
      | none => none
      | some st => some (finishCourt p entry (handleShotAction entry st courtTeam a))
    else
      if (act = strRebound ∨ act = strAssist ∨ act = strBlock) ∧ st? = none then none
      else
        some (finishCourt p entry
          (handleStatAction act (st?.getD initialPlayerStats) p a))

/-! ### Team-stat adjustment and quick stats -/

/-- `applyStatAdjustment(team, stat, newValue)`: undo push first (with the
pre-adjustment snapshots), then the write and the feed line. -/
def applyStatAdjustment (team : Team) (isFouls : Bool) (newValue : Nat) (eid : String)
    (a : App) : App :=
  let oldValue := (getTeamStatPair a.game.gameState isFouls).get team
  let a1 := addToUndoStack (UndoableAction.teamAdj eid team isFouls oldValue newValue) a
  let a2 := { a1 with game := { a1.game with
      gameState := setTeamStatPair a1.game.gameState isFouls
        ((getTeamStatPair a1.game.gameState isFouls).set team newValue) } }
  addPlayByPlayEvent
    (adjMsg ((a2.game.teams.get team).name) isFouls
      (if oldValue < newValue then strAdded else strRemoved) newValue) a2

/-- `adjustTeamStat(team, stat, adjustment)`: admin-gated,
`Math.max(0, current + adjustment)`; the foul-limit confirmation dialog is
modelled as confirmed (the `newValue < 0` timeout branch is unreachable
after the clamp). -/
def adjustTeamStat (team : Team) (isFouls : Bool) (adjustment : Int) (eid : String)
    (a : App) : App :=
  if a.isAdmin = false then a
  else
    let currentValue := (getTeamStatPair a.game.gameState isFouls).get team
    let newValue := ((currentValue : Int) + adjustment).toNat
    applyStatAdjustment team isFouls newValue eid a

/-- The quick-stat `action` object. -/
def quickStatEntry (statType : String) (points : Nat) (p : Player) (team? : Option Team)
    (eid : String) (g : Game) : StatEntry :=
  { id := eid, playerId := p.id, playerNumber := p.number, playerName := p.name,
    team := team?, action := none, statType := some statType, type := strQuickStat,
    result := none, points := some points, shotType := none,
    period := g.gameState.period, gameClock := formatTime g.gameState.gameTime }

/-- The body of one quick-stat switch case, from the looked-up player record
to the updated record and state (`a` is the state after the undo push). -/
def quickSwitch (statType : String) (points : Nat) (p : Player) (team? : Option Team)
    (st : PlayerStats) (a : App) : PlayerStats × App :=
  if statType = strFt then
    let st' := { st with
        freeThrows := { made := st.freeThrows.made + 1,
                        attempted := st.freeThrows.attempted + 1 },
        points := st.points + points }
    (st', addPlayByPlayEvent (statMsg p.number p.name strMakesFreeThrow)
      (addScore team? points a))
  else if statType = strFg2 then
    let st' := { st with
        fieldGoals := { made := st.fieldGoals.made + 1,
                        attempted := st.fieldGoals.attempted + 1 },
        points := st.points + points }
    let a1 := addScore team? points a
    let a2 := { a1 with game := { a1.game with analytics := { a1.game.analytics with
        totalShots := a1.game.analytics.totalShots + 1,
        madeShots := a1.game.analytics.madeShots + 1 } } }
    let a3 := addPlayByPlayEvent (statMsg p.number p.name strMakes2) a2
    (st', if a3.game.settings.shotClockEnabled then resetShotClock a3 else a3)
  else if statType = strFg3 then
    let st' := { st with
        threePointers := { made := st.threePointers.made + 1,
                           attempted := st.threePointers.attempted + 1 },
        points := st.points + points }
    let a1 := addScore team? points a
    let a2 := { a1 with game := { a1.game with analytics := { a1.game.analytics with
        totalShots := a1.game.analytics.totalShots + 1,
        madeShots := a1.game.analytics.madeShots + 1,
        threePointAttempts := a1.game.analytics.threePointAttempts + 1,
        threePointMakes := a1.game.analytics.threePointMakes + 1 } } }
    let a3 := addPlayByPlayEvent (statMsg p.number p.name strMakes3) a2
    (st', if a3.game.settings.shotClockEnabled then resetShotClock a3 else a3)
  else if statType = strRebound then
    ({ st with rebounds := st.rebounds + 1 },
      addPlayByPlayEvent (statMsg p.number p.name strRebound) a)
  else if statType = strAssist then
    ({ st with assists := st.assists + 1 },
      addPlayByPlayEvent (statMsg p.number p.name strAssist) a)
  else if statType = strBlock then
    ({ st with blocks := st.blocks + 1 },
      addPlayByPlayEvent (statMsg p.number p.name strBlock) a)
  else if statType = strSteal then
    ({ st with steals := st.steals + 1 },
      addPlayByPlayEvent (statMsg p.number p.name strSteal) a)
  else if statType = strTurnover then
    ({ st with turnovers := st.turnovers + 1 },
      addPlayByPlayEvent (statMsg p.number p.name strTurnover) a)
  else (st, a)

/-- `recordQuickStat(statType, points)`: admin-gated; a missing player
selection aborts unless the stat is a timeout; `foul`/`timeout` stats divert
to `adjustTeamStat`; a missing stats record aborts quietly; otherwise the
undo push comes first (snapshots taken before the mutation), then the switch,
then `analytics.totalActions++`. -/
def recordQuickStat (statType : String) (points : Nat) (p? : Option Player)
    (quickTeam : Team) (eid : String) (a : App) : App :=
  if a.isAdmin = false then a
  else if p? = none ∧ strContains statType strTimeout = false then a
  else if strContains statType strFoul || strContains statType strTimeout then
    adjustTeamStat quickTeam (strContains statType strFoul)
      (if strContains statType strPlus then 1 else -1) eid a
  else
    match p? with
    | none => a
    | some p =>
      match statsGet a.game.stats p.id with
      | none => a
      | some st =>
        let team? := getPlayerTeam a.game p.id
        let entry := quickStatEntry statType points p team? eid a.game
        let a1 := addToUndoStack (UndoableAction.entry entry) a
        let r := quickSwitch statType points p team? st a1
        let a2 := { r.2 with game := { r.2.game with
            stats := statsSet r.2.game.stats p.id r.1 } }
        { a2 with game := { a2.game with analytics := { a2.game.analytics with
            totalActions := a2.game.analytics.totalActions + 1 } } }

/-! ### The one-second interval callbacks -/

/-- The game-clock interval body.  The Boolean part of the result records
whether this tick invoked `handlePeriodEnd` (the decrement is guarded, and
period-end handling fires exactly when the decrement lands on zero). -/
def gameClockTick (a : App) : App × Bool :=
  if 0 < a.game.gameState.gameTime then
    let a1 := { a with game := { a.game with gameState := { a.game.gameState with
        gameTime := a.game.gameState.gameTime - 1 } } }
    if a1.game.gameState.gameTime = 0 then (handlePeriodEnd a1, true) else (a1, false)
  else (a, false)

/-- The shot-clock interval body (the warning/danger display classes are
presentation only). -/
def shotClockTick (a : App) : App :=
  if 0 < a.game.gameState.shotClock then
    { a with game := { a.game with gameState := { a.game.gameState with
        shotClock := a.game.gameState.shotClock - 1 } } }
  else a

/-- One second of wall-clock time: each installed interval runs its body
once.  The source's two `setInterval` callbacks run back to back on the
event loop; the game clock is stepped first here, and the Boolean reports
whether `handlePeriodEnd` ran. -/
def sysTick (a : App) : App × Bool :=
  let g := if a.clockRunning then gameClockTick a else (a, false)
  let a2 := if g.1.shotClockRunning then shotClockTick g.1 else g.1
  (a2, g.2)

/-- `n` seconds of ticking, counting how many times `handlePeriodEnd` was
invoked. -/
def runTicks : Nat → App → App × Nat
  | 0, a => (a, 0)
  | Nat.succ n, a =>
    let s := sysTick a
    let r := runTicks n s.1
    (r.1, (if s.2 then 1 else 0) + r.2)

/-! ### Recorded operations as a step relation -/

/-- One operator action: a court tap routed through `handleNewCourtAction`
or a quick-stat button routed through `recordQuickStat`. -/
inductive Op where
  | court (p? : Option Player) (team : Team) (act : String) (eid : String)
  | quick (statType : String) (points : Nat) (p? : Option Player)
      (quickTeam : Team) (eid : String)
deriving DecidableEq, Repr

def applyOp (a : App) : Op → Option App
  | Op.court p? team act eid => handleNewCourtAction p? team act eid a
  | Op.quick st pts p? qt eid => some (recordQuickStat st pts p? qt eid a)

def runOps (a : App) : List Op → Option App
  | [] => some a
  | op :: ops =>
    match applyOp a op with
    | none => none
    | some a' => runOps a' ops

/-- A well-formed operation: the referenced player is selected and has a
stats record (which the UI guarantees).  Foul/timeout quick stats divert to
the team counters and need no player. -/
def validOp (a : App) : Op → Bool
  | Op.court p? _ _ _ =>
    match p? with
    | none => false
    | some p => (statsGet a.game.stats p.id).isSome
  | Op.quick st _ p? _ _ =>
    if strContains st strFoul || strContains st strTimeout then true
    else
      match p? with
      | none => false
      | some p => (statsGet a.game.stats p.id).isSome

/-- How many shots the code's counter sees in one operation: every court
make/miss, and the quick `fg2`/`fg3` buttons — the quick free-throw button
does not touch the shot counters. -/
def shotInc : Op → Nat
  | Op.court _ _ act _ => if isShotCode act then 1 else 0
  | Op.quick st _ _ _ _ =>
    if strContains st strFoul || strContains st strTimeout then 0
    else if st = strFg2 ∨ st = strFg3 then 1 else 0

/-- The made-shot counterpart of `shotInc`. -/
def madeInc : Op → Nat
  | Op.court _ _ act _ =>
    if isShotCode act ∧ jsStartsWith (courtOutcome act) strMake = true then 1 else 0
  | Op.quick st _ _ _ _ =>
    if strContains st strFoul || strContains st strTimeout then 0
    else if st = strFg2 ∨ st = strFg3 then 1 else 0

/-- How much one operation adds to `analytics.totalActions`: a court make
gains one through `addScore`, a court miss or non-shot gains none; a quick
scoring stat gains two (`addScore` plus the closing increment), a quick
foul/timeout diverts to the team counters and gains none, and every other
quick stat gains one. -/
def actionInc : Op → Nat
  | Op.court _ _ act _ =>
    if isShotCode act ∧ jsStartsWith (courtOutcome act) strMake = true then 1 else 0
  | Op.quick st _ _ _ _ =>
    if strContains st strFoul || strContains st strTimeout then 0
    else if st = strFt ∨ st = strFg2 ∨ st = strFg3 then 2 else 1

/-- Shot count according to the claim's wording, under which the quick
free-throw button also records a shot. -/
def specIsShotOp : Op → Bool
  | Op.court _ _ act _ => isShotCode act
  | Op.quick st _ _ _ _ => st = strFt || st = strFg2 || st = strFg3

def claimShotCount (ops : List Op) : Nat := (ops.filter specIsShotOp).length

/-! ### A concrete session

A freshly created quarters-format game (period duration 10 minutes = 600
seconds, shot-clock tracking enabled), started, with one rostered home
player `A` (`#7`, id `home_7`) holding the zero stats record `addPlayer`
creates.  The shot clock is at 17 so that a reset to 24 is visible. -/

def playerA : Player := { id := "home_7", number := 7, name := "A" }

def scenarioSettings : Settings :=
  { gameFormat := strQuarters, periodDuration := 10, timeoutsPerTeam := 7,
    foulLimit := 7, shotClockEnabled := true, shotClockTime := 24 }

def scenarioGame : Game :=
  { status := Status.ready, settings := scenarioSettings,
    teams :=
      { home := { name := "Home Team", players := [playerA] },
        away := { name := "Away Team", players := [] } },
    gameState :=
      { period := 1, gameTime := 600, shotClock := 17,
        scores := { home := 0, away := 0 }, fouls := { home := 0, away := 0 },
        timeouts := { home := 7, away := 7 } },
    stats := [(playerA.id, initialPlayerStats)],
    shots := [], playByPlay := [],
    analytics := { totalShots := 0, madeShots := 0, threePointAttempts := 0,
                   threePointMakes := 0, totalActions := 0 } }

def scenarioApp : App :=
  { isAdmin := true, game := scenarioGame, undoStack := [],
    clockRunning := false, shotClockRunning := false }

def strMake3Corner : String := "make3-corner"
def strMake2Layup : String := "make2-layup"
def strMiss2Jumper : String := "miss2-jumper"
def eidC1 : String := "c1"
def eidC2 : String := "c2"
def eidC4 : String := "c4"
def eidQ : String := "q1"

/-! ### C1: the `make3-corner` scenario -/

/-- The recorded `make3-corner` court action of the C1 scenario. -/
def c1Run : Option App :=
  handleNewCourtAction (some playerA) Team.home strMake3Corner eidC1 scenarioApp

/-- C1 counterexample: `make3-corner` parses to shot subtype `corner`, which
matches neither `'3PT'` nor `'logo'` in `handleShotAction`, so the claimed
three-pointer counters stay at zero: the claim's expected values
(`threePointers 1/1`, `threePointAttempts 1`, `threePointMakes 1`) are false
at this input. -/
theorem c1_counterexample :
    (c1Run.bind fun a => statsGet a.game.stats playerA.id).map
        (fun s => (s.threePointers.made, s.threePointers.attempted)) = some (0, 0) ∧
    c1Run.map (fun a => a.game.analytics.threePointAttempts) = some 0 ∧
    c1Run.map (fun a => a.game.analytics.threePointMakes) = some 0 ∧
    ¬ c1Run.map (fun a => a.game.analytics.threePointAttempts) = some 1 := by
  refine ⟨by decide, by decide, by decide, by decide⟩

/-- C1 (amended): recording `make3-corner` for player A yields home score 3
and 3 player points with the make booked under field goals (1/1) — the
`corner` subtype is not recognised as a three-pointer, so `threePointers`
and the three-point analytics stay 0 — with `totalShots`/`madeShots` at 1
and the shot clock reset to 24. -/
theorem c1_amended :
    c1Run.map (fun a =>
      (a.game.gameState.scores.home,
       (statsGet a.game.stats playerA.id).map
         (fun s => (s.points, s.fieldGoals.made, s.fieldGoals.attempted,
                    s.threePointers.made, s.threePointers.attempted)),
       a.game.analytics.totalShots, a.game.analytics.madeShots,
       a.game.analytics.threePointAttempts, a.game.analytics.threePointMakes,
       a.game.gameState.shotClock)) =
    some (3, some (3, 1, 1, 0, 0), 1, 1, 0, 0, 24) := by
  rfl

/-! ### C2: the court-path undo snapshots -/

/-- The recorded `make2-layup` court action of the C2 failing input. -/
def c2Run : Option App :=
  handleNewCourtAction (some playerA) Team.home strMake2Layup eidC2 scenarioApp

/-- C2 (code bug): `handleNewCourtAction` applies the action before calling
`addToUndoStack`, so the `gameStateBefore`/`statsBefore`/`analyticsBefore`
snapshots hold the post-action state.  Undoing the freshly recorded
`make2-layup` therefore leaves player A's points at 2, the home score at 2
and `totalShots` at 1 — none of the pre-action zeros — and only removes the
entry from the ledger. -/
theorem c2_code_bug :
    (c2Run.map (fun a1 =>
      ((statsGet (undoLastAction a1).game.stats playerA.id).map (fun s => s.points),
       (undoLastAction a1).game.gameState.scores.home,
       (undoLastAction a1).game.analytics.totalShots,
       (undoLastAction a1).game.analytics.madeShots,
       (undoLastAction a1).game.shots.length,
       (undoLastAction a1).undoStack.length))) =
      some (some 2, 2, 1, 1, 0, 0) ∧
    (statsGet scenarioApp.game.stats playerA.id).map (fun s => s.points) = some 0 ∧
    scenarioApp.game.gameState.scores.home = 0 ∧
    scenarioApp.game.analytics.totalShots = 0 := by
  refine ⟨by rfl, by rfl, by rfl, by rfl⟩

/-- Supporting evidence for the C2 verdict: the quick-stat path calls
`addToUndoStack` before mutating, and there undo does restore the
pre-action GameState, stats map and analytics exactly. -/
theorem quick_undo_restores :
    (undoLastAction (recordQuickStat strFg2 2 (some playerA) Team.home eidQ
        scenarioApp)).game.gameState = scenarioApp.game.gameState ∧
    (undoLastAction (recordQuickStat strFg2 2 (some playerA) Team.home eidQ
        scenarioApp)).game.stats = scenarioApp.game.stats ∧
    (undoLastAction (recordQuickStat strFg2 2 (some playerA) Team.home eidQ
        scenarioApp)).game.analytics = scenarioApp.game.analytics := by
  refine ⟨by rfl, by rfl, by rfl⟩

/-! ### C9: a guarded undo is a complete no-op -/

/-- C9: `undoLastAction` with an empty undo stack, or without the admin
capability, changes nothing at all: the whole application state — GameState,
stats map, analytics, ledger and undo stack included — is returned
untouched. -/
theorem c9_undo_noop (a : App) (h : a.isAdmin = false ∨ a.undoStack = []) :
    undoLastAction a = a := by
  unfold undoLastAction
  rw [if_pos h]

/-- C9 witness: the started scenario session has an admin but an empty undo
stack, and undoing is the identity on it; a non-admin variant with the same
stack is also left untouched. -/
theorem c9_undo_noop_witness :
    undoLastAction scenarioApp = scenarioApp ∧
    undoLastAction { scenarioApp with isAdmin := false } =
      { scenarioApp with isAdmin := false } := by
  exact ⟨c9_undo_noop scenarioApp (Or.inr rfl),
    c9_undo_noop { scenarioApp with isAdmin := false } (Or.inl rfl)⟩

/-! ### C6: clock start from any non-live status -/

def appSetup : App :=
  { scenarioApp with game := { scenarioApp.game with status := Status.setup } }

def appFinal : App :=
  { scenarioApp with game := { scenarioApp.game with status := Status.final } }

/-- C6 counterexample: invoking the clock toggle in `setup` (and in `final`)
does start the countdowns and does set the status to `live` — the claimed
ready/paused guard does not exist in `toggleGameClock`/`resumeGame`. -/
theorem c6_counterexample :
    appSetup.game.status = Status.setup ∧
    (toggleGameClock appSetup).game.status = Status.live ∧
    (toggleGameClock appSetup).clockRunning = true ∧
    appFinal.game.status = Status.final ∧
    (toggleGameClock appFinal).game.status = Status.live ∧
    (toggleGameClock appFinal).clockRunning = true := by
  refine ⟨by rfl, by rfl, by rfl, by rfl, by rfl, by rfl⟩

/-- C6 (amended): the clock toggle is gated only on the admin capability.
For an admin it starts the countdowns and sets the status to `live` from
every non-live status — `ready` and `paused`, but equally `setup` and
`final` — and pauses from `live`; without the admin capability it is a
no-op. -/
theorem c6_amended (a : App) :
    (a.isAdmin = true → ¬ a.game.status = Status.live →
      (toggleGameClock a).game.status = Status.live ∧
      (toggleGameClock a).clockRunning = true ∧
      (a.game.settings.shotClockEnabled = true →
        (toggleGameClock a).shotClockRunning = true)) ∧
    (a.isAdmin = true → a.game.status = Status.live →
      (toggleGameClock a).game.status = Status.paused ∧
      (toggleGameClock a).clockRunning = false ∧
      (toggleGameClock a).shotClockRunning = false) ∧
    (a.isAdmin = false → toggleGameClock a = a) := by
  refine ⟨?_, ?_, ?_⟩
  · intro hA hL
    have ht : toggleGameClock a = resumeGame a := by
      unfold toggleGameClock
      rw [hA, if_neg (by simp), if_neg hL]
    rw [ht]
    by_cases hS : a.game.settings.shotClockEnabled = true <;>
      simp [resumeGame, addPlayByPlayEvent, hS]
  · intro hA hL
    have ht : toggleGameClock a = pauseGame a := by
      unfold toggleGameClock
      rw [hA, if_neg (by simp), if_pos hL]
    rw [ht]
    exact ⟨rfl, rfl, rfl⟩
  · intro hA
    unfold toggleGameClock
    rw [hA, if_pos rfl]

/-- C6 witness: from the `ready` scenario session the toggle goes live with
both countdowns running; from a live variant it pauses; a non-admin toggle
is the identity. -/
theorem c6_amended_witness :
    ((toggleGameClock scenarioApp).game.status = Status.live ∧
      (toggleGameClock scenarioApp).clockRunning = true ∧
      (scenarioApp.game.settings.shotClockEnabled = true →
        (toggleGameClock scenarioApp).shotClockRunning = true)) ∧
    (toggleGameClock { scenarioApp with isAdmin := false } =
      { scenarioApp with isAdmin := false }) := by
  exact ⟨(c6_amended scenarioApp).1 rfl (by decide),
    (c6_amended { scenarioApp with isAdmin := false }).2.2 rfl⟩

/-! ### C5: period-end handling -/

/-- C5: at period end (clock expiry or operator-forced) — within regulation
(period < 4 for quarters, < 2 otherwise) the period advances, the clock is
restored to the configured period duration and the status is `paused`; with
regulation exhausted and the scores tied the period advances into a
300-second overtime, still `paused`; otherwise the game goes `final`. -/
theorem c5_period_end (a : App) :
    (a.game.gameState.period < maxPeriods a.game →
      (handlePeriodEnd a).game.gameState.period = a.game.gameState.period + 1 ∧
      (handlePeriodEnd a).game.gameState.gameTime =
        ((a.game.settings.periodDuration * 60 : Nat) : Int) ∧
      (handlePeriodEnd a).game.status = Status.paused) ∧
    (¬ a.game.gameState.period < maxPeriods a.game →
      a.game.gameState.scores.home = a.game.gameState.scores.away →
      (handlePeriodEnd a).game.gameState.period = a.game.gameState.period + 1 ∧
      (handlePeriodEnd a).game.gameState.gameTime = 300 ∧
      (handlePeriodEnd a).game.status = Status.paused) ∧
    (¬ a.game.gameState.period < maxPeriods a.game →
      ¬ a.game.gameState.scores.home = a.game.gameState.scores.away →
      (handlePeriodEnd a).game.status = Status.final) := by
  refine ⟨?_, ?_, ?_⟩
  · intro h1
    unfold maxPeriods at h1
    simp [handlePeriodEnd, maxPeriods, clearIntervals, addPlayByPlayEvent,
      endGame, h1]
  · intro h1 h2
    unfold maxPeriods at h1
    simp [handlePeriodEnd, maxPeriods, clearIntervals, addPlayByPlayEvent,
      endGame, h1, h2]
  · intro h1 h2
    unfold maxPeriods at h1
    simp [handlePeriodEnd, maxPeriods, clearIntervals, addPlayByPlayEvent,
      endGame, h1, h2]

def appP4Tied : App :=
  { scenarioApp with game := { scenarioApp.game with
      gameState := { scenarioApp.game.gameState with period := 4 } } }

def appP4Lead : App :=
  { scenarioApp with game := { scenarioApp.game with
      gameState := { scenarioApp.game.gameState with
                     period := 4,
                     scores := { home := 10, away := 8 } } } }

/-- C5 witness: ending period 1 of the quarters scenario pauses into period 2
with a 600-second clock; ending a tied period 4 pauses into a 300-second
period 5; ending period 4 with a lead goes `final`. -/
theorem c5_period_end_witness :
    ((handlePeriodEnd scenarioApp).game.gameState.period =
        scenarioApp.game.gameState.period + 1 ∧
      (handlePeriodEnd scenarioApp).game.gameState.gameTime =
        ((scenarioApp.game.settings.periodDuration * 60 : Nat) : Int) ∧
      (handlePeriodEnd scenarioApp).game.status = Status.paused) ∧
    ((handlePeriodEnd appP4Tied).game.gameState.period =
        appP4Tied.game.gameState.period + 1 ∧
      (handlePeriodEnd appP4Tied).game.gameState.gameTime = 300 ∧
      (handlePeriodEnd appP4Tied).game.status = Status.paused) ∧
    (handlePeriodEnd appP4Lead).game.status = Status.final := by
  exact ⟨(c5_period_end scenarioApp).1 (by decide),
    (c5_period_end appP4Tied).2.1 (by decide) (by decide),
    (c5_period_end appP4Lead).2.2 (by decide) (by decide)⟩

/-! ### C7: clock safety under the tick relation -/

theorem shotClockTick_clockRunning (a : App) :
    (shotClockTick a).clockRunning = a.clockRunning := by
  unfold shotClockTick
  split <;> rfl

theorem shotClockTick_shotClockRunning (a : App) :
    (shotClockTick a).shotClockRunning = a.shotClockRunning := by
  unfold shotClockTick
  split <;> rfl

theorem shotClockTick_gameTime (a : App) :
    (shotClockTick a).game.gameState.gameTime = a.game.gameState.gameTime := by
  unfold shotClockTick
  split <;> rfl

theorem shotClockTick_shotClock_nonneg (a : App)
    (h : 0 ≤ a.game.gameState.shotClock) :
    0 ≤ (shotClockTick a).game.gameState.shotClock := by
  unfold shotClockTick
  split
  · next hc => simp only; omega
  · exact h

theorem handlePeriodEnd_clockRunning (a : App) :
    (handlePeriodEnd a).clockRunning = false := by
  simp only [handlePeriodEnd, endGame, addPlayByPlayEvent, clearIntervals]
  split_ifs <;> rfl

theorem handlePeriodEnd_shotClockRunning (a : App) :
    (handlePeriodEnd a).shotClockRunning = false := by
  simp only [handlePeriodEnd, endGame, addPlayByPlayEvent, clearIntervals]
  split_ifs <;> rfl

theorem handlePeriodEnd_shotClock (a : App) :
    (handlePeriodEnd a).game.gameState.shotClock = a.game.gameState.shotClock := by
  simp only [handlePeriodEnd, endGame, addPlayByPlayEvent, clearIntervals]
  split_ifs <;> rfl

theorem handlePeriodEnd_gameTime_nonneg (a : App)
    (h : 0 ≤ a.game.gameState.gameTime) :
    0 ≤ (handlePeriodEnd a).game.gameState.gameTime := by
  simp only [handlePeriodEnd, endGame, addPlayByPlayEvent, clearIntervals]
  split_ifs <;> simp only <;> omega

/-- The game-clock callback when the counter stands above one: plain
decrement, no period end. -/
theorem gameClockTick_above_one (a : App) (h : 1 < a.game.gameState.gameTime) :
    gameClockTick a =
      ({ a with game := { a.game with gameState := { a.game.gameState with
          gameTime := a.game.gameState.gameTime - 1 } } }, false) := by
  unfold gameClockTick
  rw [if_pos (by omega), if_neg (by simp only; omega)]

/-- The game-clock callback at exactly one second left: the decrement lands
on zero and `handlePeriodEnd` runs. -/
theorem gameClockTick_at_one (a : App) (h : a.game.gameState.gameTime = 1) :
    gameClockTick a =
      (handlePeriodEnd { a with game := { a.game with gameState :=
          { a.game.gameState with gameTime := a.game.gameState.gameTime - 1 } } },
        true) := by
  unfold gameClockTick
  rw [if_pos (by omega), if_pos (by simp only; omega)]

/-- The game-clock callback at zero (or below): nothing happens. -/
theorem gameClockTick_at_zero (a : App) (h : ¬ 0 < a.game.gameState.gameTime) :
    gameClockTick a = (a, false) := by
  unfold gameClockTick
  rw [if_neg h]

/-- `sysTick` as the second stage applied to the first. -/
theorem sysTick_def (a : App) :
    sysTick a =
      ((fun b => if b.shotClockRunning = true then shotClockTick b else b)
          (if a.clockRunning = true then gameClockTick a else (a, false)).1,
        (if a.clockRunning = true then gameClockTick a else (a, false)).2) := rfl

theorem stage2_clockRunning (b : App) :
    (if b.shotClockRunning = true then shotClockTick b else b).clockRunning =
      b.clockRunning := by
  split
  · exact shotClockTick_clockRunning b
  · rfl

theorem stage2_gameTime (b : App) :
    (if b.shotClockRunning = true then shotClockTick b else b).game.gameState.gameTime =
      b.game.gameState.gameTime := by
  split
  · exact shotClockTick_gameTime b
  · rfl

theorem stage2_shotClock_nonneg (b : App) (h : 0 ≤ b.game.gameState.shotClock) :
    0 ≤ (if b.shotClockRunning = true then shotClockTick b else
      b).game.gameState.shotClock := by
  split
  · exact shotClockTick_shotClock_nonneg b h
  · exact h

/-- Without an installed game-clock interval a tick never fires period-end
handling and leaves the interval uninstalled and the game clock alone. -/
theorem sysTick_not_running (a : App) (h : a.clockRunning = false) :
    (sysTick a).2 = false ∧ (sysTick a).1.clockRunning = false ∧
    (sysTick a).1.game.gameState.gameTime = a.game.gameState.gameTime := by
  rw [sysTick_def, h]
  rw [if_neg (by decide)]
  exact ⟨rfl, by rw [stage2_clockRunning]; exact h, by rw [stage2_gameTime]⟩

/-- A running tick with more than one second left: no fire, still running,
one second less. -/
theorem sysTick_above_one (a : App) (h : a.clockRunning = true)
    (hg : 1 < a.game.gameState.gameTime) :
    (sysTick a).2 = false ∧ (sysTick a).1.clockRunning = true ∧
    (sysTick a).1.game.gameState.gameTime = a.game.gameState.gameTime - 1 := by
  rw [sysTick_def, h, if_pos rfl, gameClockTick_above_one a hg]
  refine ⟨rfl, ?_, ?_⟩
  · rw [stage2_clockRunning]
    exact h
  · rw [stage2_gameTime]

/-- A running tick at exactly one second left fires period-end handling,
which cancels the game-clock interval. -/
theorem sysTick_at_one (a : App) (h : a.clockRunning = true)
    (hg : a.game.gameState.gameTime = 1) :
    (sysTick a).2 = true ∧ (sysTick a).1.clockRunning = false := by
  rw [sysTick_def, h, if_pos rfl, gameClockTick_at_one a hg]
  refine ⟨rfl, ?_⟩
  rw [stage2_clockRunning]
  exact handlePeriodEnd_clockRunning _

/-- A running tick at zero does nothing (and in the source the interval is
already cancelled by the tick that reached zero). -/
theorem sysTick_at_zero (a : App) (h : ¬ 0 < a.game.gameState.gameTime) :
    (sysTick a).2 = false ∧ (sysTick a).1.clockRunning = a.clockRunning ∧
    (sysTick a).1.game.gameState.gameTime = a.game.gameState.gameTime := by
  rw [sysTick_def]
  by_cases hr : a.clockRunning = true
  · rw [hr, if_pos rfl, gameClockTick_at_zero a h]
    exact ⟨rfl, by rw [stage2_clockRunning, hr], by rw [stage2_gameTime]⟩
  · rw [if_neg hr]
    exact ⟨rfl, by rw [stage2_clockRunning], by rw [stage2_gameTime]⟩

theorem runTicks_snd_succ (n : Nat) (a : App) :
    (runTicks (n + 1) a).2 =
      (if (sysTick a).2 then 1 else 0) + (runTicks n (sysTick a).1).2 := rfl

/-- With the game-clock interval uninstalled, no run of ticks ever fires
period-end handling. -/
theorem runTicks_zero_of_not_running (n : Nat) :
    ∀ a : App, a.clockRunning = false → (runTicks n a).2 = 0 := by
  induction n with
  | zero => intro a _; rfl
  | succ n ih =>
    intro a h
    obtain ⟨h1, h2, _⟩ := sysTick_not_running a h
    rw [runTicks_snd_succ, h1, ih _ h2]
    decide

/-- From a running clock with `g > 0` seconds left, a run of `n` ticks fires
period-end handling exactly once when `n ≥ g` — at the tick that lands on
zero — and never otherwise. -/
theorem runTicks_fires (n : Nat) :
    ∀ a : App, a.clockRunning = true → 0 < a.game.gameState.gameTime →
      (runTicks n a).2 =
        if a.game.gameState.gameTime ≤ (n : Int) then 1 else 0 := by
  induction n with
  | zero =>
    intro a _ hg
    rw [if_neg (by omega)]
    rfl
  | succ n ih =>
    intro a h hg
    by_cases h1 : a.game.gameState.gameTime = 1
    · obtain ⟨hf, hr⟩ := sysTick_at_one a h h1
      rw [runTicks_snd_succ, hf, if_pos rfl,
        runTicks_zero_of_not_running n _ hr, if_pos (by omega)]
    · obtain ⟨hf, hr, hgt⟩ := sysTick_above_one a h (by omega)
      rw [runTicks_snd_succ, hf, if_neg (by decide),
        ih _ hr (by omega), hgt]
      by_cases hle : a.game.gameState.gameTime ≤ ((n : Int) + 1)
      · rw [if_pos (by omega), if_pos (by push_cast; omega)]
      · rw [if_neg (by omega), if_neg (by push_cast at hle ⊢; omega)]

/-- C7: under the one-second tick relation the game clock and the shot clock
never go negative (each callback decrements only a positive counter), a tick
invokes `handlePeriodEnd` exactly when the running game clock steps from one
to zero, and over any run of ticks from a running clock with `g` seconds
left the handler is invoked exactly once — at the `g`-th tick — and never on
later ticks. -/
theorem c7_clock_safety :
    (∀ a : App, 0 ≤ a.game.gameState.gameTime → 0 ≤ a.game.gameState.shotClock →
      0 ≤ (sysTick a).1.game.gameState.gameTime ∧
      0 ≤ (sysTick a).1.game.gameState.shotClock) ∧
    (∀ a : App, (sysTick a).2 = true ↔
      (a.clockRunning = true ∧ a.game.gameState.gameTime = 1)) ∧
    (∀ (n : Nat) (a : App), a.clockRunning = true → 0 < a.game.gameState.gameTime →
      (runTicks n a).2 =
        if a.game.gameState.gameTime ≤ (n : Int) then 1 else 0) := by
  refine ⟨?_, ?_, fun n => runTicks_fires n⟩
  · intro a hg hs
    rw [sysTick_def]
    by_cases hr : a.clockRunning = true
    · rw [hr, if_pos rfl]
      by_cases hz : 0 < a.game.gameState.gameTime
      · by_cases h1 : a.game.gameState.gameTime = 1
        · rw [gameClockTick_at_one a h1]
          constructor
          · rw [stage2_gameTime]
            exact handlePeriodEnd_gameTime_nonneg _ (by simp only; omega)
          · apply stage2_shotClock_nonneg
            rw [handlePeriodEnd_shotClock]
            exact hs
        · rw [gameClockTick_above_one a (by omega)]
          constructor
          · rw [stage2_gameTime]
            simp only
            omega
          · exact stage2_shotClock_nonneg _ hs
      · rw [gameClockTick_at_zero a hz]
        exact ⟨by rw [stage2_gameTime]; exact hg, stage2_shotClock_nonneg _ hs⟩
    · rw [if_neg hr]
      exact ⟨by rw [stage2_gameTime]; exact hg, stage2_shotClock_nonneg _ hs⟩
  · intro a
    cases hb : a.clockRunning with
    | false =>
      obtain ⟨h1, _, _⟩ := sysTick_not_running a hb
      rw [h1]
      simp [hb]
    | true =>
      by_cases h1 : a.game.gameState.gameTime = 1
      · obtain ⟨hf, _⟩ := sysTick_at_one a hb h1
        rw [hf]
        simp [hb, h1]
      · by_cases hz : 0 < a.game.gameState.gameTime
        · obtain ⟨hf, _, _⟩ := sysTick_above_one a hb (by omega)
          rw [hf]
          simp [hb, h1]
        · obtain ⟨hf, _, _⟩ := sysTick_at_zero a hz
          rw [hf]
          simp only [hb, true_and]
          constructor
          · intro hc
            exact absurd hc (by decide)
          · intro hc
            omega

def tickApp : App :=
  { scenarioApp with
      clockRunning := true,
      shotClockRunning := true,
      game := { scenarioApp.game with
        gameState := { scenarioApp.game.gameState with gameTime := 2 } } }

/-- C7 witness: from the scenario session with both intervals installed and
two seconds on the game clock, one tick keeps both clocks nonnegative, the
fire condition is the one-second boundary, and five ticks fire period-end
handling exactly once. -/
theorem c7_clock_safety_witness :
    (0 ≤ (sysTick tickApp).1.game.gameState.gameTime ∧
      0 ≤ (sysTick tickApp).1.game.gameState.shotClock) ∧
    ((sysTick tickApp).2 = true ↔
      (tickApp.clockRunning = true ∧ tickApp.game.gameState.gameTime = 1)) ∧
    (runTicks 5 tickApp).2 =
      (if tickApp.game.gameState.gameTime ≤ (5 : Int) then 1 else 0) := by
  exact ⟨c7_clock_safety.1 tickApp (by decide) (by decide),
    c7_clock_safety.2.1 tickApp,
    c7_clock_safety.2.2 5 tickApp rfl (by decide)⟩

/-! ### Stats-map lemmas -/

/-- Writing back the value just read leaves the map untouched. -/
theorem statsSet_self (m : StatsMap) (pid : String) (v : PlayerStats)
    (h : statsGet m pid = some v) : statsSet m pid v = m := by
  induction m with
  | nil => simp [statsGet] at h
  | cons kv rest ih =>
    unfold statsGet at h
    unfold statsSet
    by_cases hk : (kv.1 == pid) = true
    · rw [if_pos hk] at h
      rw [if_pos hk]
      obtain ⟨rfl⟩ := Option.some.inj h
      have hkk : kv.1 = pid := beq_iff_eq.mp hk
      rw [← hkk]
    · rw [if_neg hk] at h
      rw [if_neg hk, ih h]

/-- `statsSet` never creates or removes a key. -/
theorem statsGet_statsSet_isSome (m : StatsMap) (pid q : String) (v : PlayerStats) :
    (statsGet (statsSet m pid v) q).isSome = (statsGet m q).isSome := by
  induction m with
  | nil => rfl
  | cons kv rest ih =>
    unfold statsSet
    by_cases hk : (kv.1 == pid) = true
    · rw [if_pos hk]
      unfold statsGet
      have hkk : kv.1 = pid := beq_iff_eq.mp hk
      rw [hkk]
      by_cases hq : (pid == q) = true
      · rw [if_pos hq, if_pos hq]
        rfl
      · rw [if_neg hq, if_neg hq]
    · rw [if_neg hk]
      unfold statsGet
      by_cases hq : (kv.1 == q) = true
      · rw [if_pos hq, if_pos hq]
      · rw [if_neg hq, if_neg hq, ih]

/-! ### C10: non-counted court actions only reach the ledger and undo stack -/

/-- C10: recording a court action whose code is no shot (its outcome segment
contains neither `make` nor `miss`) and none of `rebound`/`assist`/`block` —
`foul` in particular — appends the entry to the action ledger and pushes an
undo entry, and leaves the per-player stats map, the whole GameState (both
scores and both team foul counts included), the analytics counters and even
the play-by-play feed unchanged. -/
theorem c10_frame (a : App) (p : Player) (team : Team) (act eid : String)
    (st : PlayerStats)
    (hStats : statsGet a.game.stats p.id = some st)
    (hMake : strContains (courtOutcome act) strMake = false)
    (hMiss : strContains (courtOutcome act) strMiss = false)
    (hR : ¬ act = strRebound) (hA : ¬ act = strAssist) (hB : ¬ act = strBlock) :
    ∃ a', handleNewCourtAction (some p) team act eid a = some a' ∧
      a'.game.stats = a.game.stats ∧
      a'.game.gameState = a.game.gameState ∧
      a'.game.analytics = a.game.analytics ∧
      a'.game.playByPlay = a.game.playByPlay ∧
      a'.game.shots = a.game.shots ++ [courtStatEntry p team act eid a.game] ∧
      a'.undoStack = pushUndo
        { action := UndoableAction.entry (courtStatEntry p team act eid a.game),
          gameStateBefore := a.game.gameState, statsBefore := a.game.stats,
          analyticsBefore := a.game.analytics } a.undoStack := by
  have hShot : isShotCode act = false := by
    unfold isShotCode
    rw [hMake, hMiss]
    rfl
  have hsa : handleStatAction act st p a = (st, a) := by
    unfold handleStatAction
    rw [if_neg hR, if_neg hA, if_neg hB]
  have hstep : handleNewCourtAction (some p) team act eid a =
      some (addToUndoStack
        (UndoableAction.entry (courtStatEntry p team act eid a.game))
        { a with game := { a.game with
            shots := a.game.shots ++ [courtStatEntry p team act eid a.game] } }) := by
    simp only [handleNewCourtAction, hStats, hShot]
    rw [if_neg (by decide)]
    rw [if_neg (fun hC => Option.some_ne_none st hC.2)]
    simp only [Option.getD_some]
    rw [hsa]
    simp only [finishCourt]
    rw [statsSet_self a.game.stats p.id st hStats]
  exact ⟨_, hstep, rfl, rfl, rfl, rfl, rfl, rfl⟩

def eidC10 : String := "c10"

/-- C10 witness: recording `foul` for player A in the scenario session
changes only the ledger and undo stack. -/
theorem c10_frame_witness :
    ∃ a', handleNewCourtAction (some playerA) Team.home strFoul eidC10 scenarioApp =
        some a' ∧
      a'.game.stats = scenarioApp.game.stats ∧
      a'.game.gameState = scenarioApp.game.gameState ∧
      a'.game.analytics = scenarioApp.game.analytics ∧
      a'.game.playByPlay = scenarioApp.game.playByPlay ∧
      a'.game.shots = scenarioApp.game.shots ++
        [courtStatEntry playerA Team.home strFoul eidC10 scenarioApp.game] ∧
      a'.undoStack = pushUndo
        { action := UndoableAction.entry
            (courtStatEntry playerA Team.home strFoul eidC10 scenarioApp.game),
          gameStateBefore := scenarioApp.game.gameState,
          statsBefore := scenarioApp.game.stats,
          analyticsBefore := scenarioApp.game.analytics } scenarioApp.undoStack := by
  exact c10_frame scenarioApp playerA Team.home strFoul eidC10 initialPlayerStats
    (by rfl) (by decide) (by decide) (by decide) (by decide) (by decide)

/-! ### Frame lemmas for the small operations -/

@[simp] theorem addPlayByPlayEvent_analytics (m : String) (a : App) :
    (addPlayByPlayEvent m a).game.analytics = a.game.analytics := rfl

@[simp] theorem addPlayByPlayEvent_stats (m : String) (a : App) :
    (addPlayByPlayEvent m a).game.stats = a.game.stats := rfl

@[simp] theorem addPlayByPlayEvent_teams (m : String) (a : App) :
    (addPlayByPlayEvent m a).game.teams = a.game.teams := rfl

@[simp] theorem addPlayByPlayEvent_isAdmin (m : String) (a : App) :
    (addPlayByPlayEvent m a).isAdmin = a.isAdmin := rfl

@[simp] theorem addPlayByPlayEvent_gameState (m : String) (a : App) :
    (addPlayByPlayEvent m a).game.gameState = a.game.gameState := rfl

@[simp] theorem addPlayByPlayEvent_settings (m : String) (a : App) :
    (addPlayByPlayEvent m a).game.settings = a.game.settings := rfl

@[simp] theorem addScore_totalShots (t? : Option Team) (p : Nat) (a : App) :
    (addScore t? p a).game.analytics.totalShots = a.game.analytics.totalShots := rfl

@[simp] theorem addScore_madeShots (t? : Option Team) (p : Nat) (a : App) :
    (addScore t? p a).game.analytics.madeShots = a.game.analytics.madeShots := rfl

@[simp] theorem addScore_threePointAttempts (t? : Option Team) (p : Nat) (a : App) :
    (addScore t? p a).game.analytics.threePointAttempts =
      a.game.analytics.threePointAttempts := rfl

@[simp] theorem addScore_threePointMakes (t? : Option Team) (p : Nat) (a : App) :
    (addScore t? p a).game.analytics.threePointMakes =
      a.game.analytics.threePointMakes := rfl

@[simp] theorem addScore_totalActions (t? : Option Team) (p : Nat) (a : App) :
    (addScore t? p a).game.analytics.totalActions =
      a.game.analytics.totalActions + 1 := rfl

@[simp] theorem addScore_stats (t? : Option Team) (p : Nat) (a : App) :
    (addScore t? p a).game.stats = a.game.stats := rfl

@[simp] theorem addScore_teams (t? : Option Team) (p : Nat) (a : App) :
    (addScore t? p a).game.teams = a.game.teams := rfl

@[simp] theorem addScore_isAdmin (t? : Option Team) (p : Nat) (a : App) :
    (addScore t? p a).isAdmin = a.isAdmin := rfl

@[simp] theorem addScore_settings (t? : Option Team) (p : Nat) (a : App) :
    (addScore t? p a).game.settings = a.game.settings := rfl

@[simp] theorem resetShotClock_analytics (a : App) :
    (resetShotClock a).game.analytics = a.game.analytics := by
  unfold resetShotClock
  split <;> rfl

@[simp] theorem resetShotClock_stats (a : App) :
    (resetShotClock a).game.stats = a.game.stats := by
  unfold resetShotClock
  split <;> rfl

@[simp] theorem resetShotClock_teams (a : App) :
    (resetShotClock a).game.teams = a.game.teams := by
  unfold resetShotClock
  split <;> rfl

@[simp] theorem resetShotClock_isAdmin (a : App) :
    (resetShotClock a).isAdmin = a.isAdmin := by
  unfold resetShotClock
  split <;> rfl

@[simp] theorem resetShotClock_settings (a : App) :
    (resetShotClock a).game.settings = a.game.settings := by
  unfold resetShotClock
  split <;> rfl

@[simp] theorem addToUndoStack_game (u : UndoableAction) (a : App) :
    (addToUndoStack u a).game = a.game := rfl

@[simp] theorem addToUndoStack_isAdmin (u : UndoableAction) (a : App) :
    (addToUndoStack u a).isAdmin = a.isAdmin := rfl

/-- The analytics and frame effects of one `handleShotAction` call: exactly
one `totalShots`, a make adds one `madeShots` and (through `addScore`) one
`totalActions`; the stats map, rosters and capability are untouched. -/
theorem handleShotAction_spec (e : StatEntry) (st : PlayerStats) (team : Team)
    (a : App) :
    (handleShotAction e st team a).2.game.analytics.totalShots =
      a.game.analytics.totalShots + 1 ∧
    (handleShotAction e st team a).2.game.analytics.madeShots =
      a.game.analytics.madeShots + (if (e.result == some strMake) = true then 1 else 0) ∧
    (handleShotAction e st team a).2.game.analytics.totalActions =
      a.game.analytics.totalActions +
        (if (e.result == some strMake) = true then 1 else 0) ∧
    (handleShotAction e st team a).2.game.stats = a.game.stats ∧
    (handleShotAction e st team a).2.game.teams = a.game.teams ∧
    (handleShotAction e st team a).2.isAdmin = a.isAdmin := by
  by_cases h3 : e.shotType = some str3PT ∨ e.shotType = some strLogo
  · by_cases hM : (e.result == some strMake) = true <;>
      by_cases hS : a.game.settings.shotClockEnabled = true <;>
      simp [handleShotAction, h3, hM, hS]
  · by_cases hF : e.shotType = some strFt <;>
      by_cases hM : (e.result == some strMake) = true <;>
      by_cases hS : a.game.settings.shotClockEnabled = true <;>
      simp +decide [handleShotAction, h3, hF, hM, hS]

/-- `handleStatAction` never touches the analytics, the stats map, the
rosters, the game state or the capability. -/
theorem handleStatAction_spec (actionType : String) (st : PlayerStats) (p : Player)
    (a : App) :
    (handleStatAction actionType st p a).2.game.analytics = a.game.analytics ∧
    (handleStatAction actionType st p a).2.game.stats = a.game.stats ∧
    (handleStatAction actionType st p a).2.game.teams = a.game.teams ∧
    (handleStatAction actionType st p a).2.game.gameState = a.game.gameState ∧
    (handleStatAction actionType st p a).2.isAdmin = a.isAdmin := by
  unfold handleStatAction
  split_ifs <;> exact ⟨rfl, rfl, rfl, rfl, rfl⟩

@[simp] theorem finishCourt_analytics (p : Player) (e : StatEntry) (r : PlayerStats × App) :
    (finishCourt p e r).game.analytics = r.2.game.analytics := rfl

@[simp] theorem finishCourt_teams (p : Player) (e : StatEntry) (r : PlayerStats × App) :
    (finishCourt p e r).game.teams = r.2.game.teams := rfl

@[simp] theorem finishCourt_isAdmin (p : Player) (e : StatEntry) (r : PlayerStats × App) :
    (finishCourt p e r).isAdmin = r.2.isAdmin := rfl

@[simp] theorem finishCourt_stats (p : Player) (e : StatEntry) (r : PlayerStats × App) :
    (finishCourt p e r).game.stats = statsSet r.2.game.stats p.id r.1 := rfl

/-- The `result` field of a court shot entry. -/
theorem courtStatEntry_result (p : Player) (team : Team) (act eid : String) (g : Game)
    (h : isShotCode act = true) :
    (courtStatEntry p team act eid g).result =
      some (if jsStartsWith (courtOutcome act) strMake = true then strMake
        else strMiss) := by
  unfold courtStatEntry
  rw [if_pos h]

/-- The make test `result === 'make'` applied to a court entry recovers the
`startsWith('make')` disjunct of the parse. -/
theorem courtResult_beq (b : Bool) :
    ((some (if b = true then strMake else strMiss) : Option String) ==
      some strMake) = b := by
  cases b <;> rfl

/-- A recorded court shot (selected player with a stats record): one
`totalShots`, a make adds `madeShots` and `totalActions`; key presence,
rosters and the capability are preserved. -/
theorem court_shot_step (a : App) (p : Player) (team : Team) (act eid : String)
    (st : PlayerStats) (hStats : statsGet a.game.stats p.id = some st)
    (hShot : isShotCode act = true) :
    ∃ a', handleNewCourtAction (some p) team act eid a = some a' ∧
      a'.game.analytics.totalShots = a.game.analytics.totalShots + 1 ∧
      a'.game.analytics.madeShots = a.game.analytics.madeShots +
        (if jsStartsWith (courtOutcome act) strMake = true then 1 else 0) ∧
      a'.game.analytics.totalActions = a.game.analytics.totalActions +
        (if jsStartsWith (courtOutcome act) strMake = true then 1 else 0) ∧
      (∀ q, (statsGet a'.game.stats q).isSome = (statsGet a.game.stats q).isSome) ∧
      a'.game.teams = a.game.teams ∧ a'.isAdmin = a.isAdmin := by
  have hstep : handleNewCourtAction (some p) team act eid a =
      some (finishCourt p (courtStatEntry p team act eid a.game)
        (handleShotAction (courtStatEntry p team act eid a.game) st team a)) := by
    simp only [handleNewCourtAction, hStats, hShot]
    rw [if_pos trivial]
  obtain ⟨h1, h2, h3, h4, h5, h6⟩ :=
    handleShotAction_spec (courtStatEntry p team act eid a.game) st team a
  have hres : ((courtStatEntry p team act eid a.game).result == some strMake) =
      jsStartsWith (courtOutcome act) strMake := by
    rw [courtStatEntry_result p team act eid a.game hShot, courtResult_beq]
  refine ⟨_, hstep, ?_, ?_, ?_, ?_, ?_, ?_⟩
  · simpa using h1
  · rw [finishCourt_analytics, h2, hres]
  · rw [finishCourt_analytics, h3, hres]
  · intro q
    rw [finishCourt_stats, statsGet_statsSet_isSome, h4]
  · rw [finishCourt_teams, h5]
  · rw [finishCourt_isAdmin, h6]

/-- A recorded non-shot court action: the analytics are untouched; key
presence, rosters and the capability are preserved. -/
theorem court_nonshot_step (a : App) (p : Player) (team : Team) (act eid : String)
    (st : PlayerStats) (hStats : statsGet a.game.stats p.id = some st)
    (hShot : isShotCode act = false) :
    ∃ a', handleNewCourtAction (some p) team act eid a = some a' ∧
      a'.game.analytics = a.game.analytics ∧
      (∀ q, (statsGet a'.game.stats q).isSome = (statsGet a.game.stats q).isSome) ∧
      a'.game.teams = a.game.teams ∧ a'.isAdmin = a.isAdmin := by
  have hstep : handleNewCourtAction (some p) team act eid a =
      some (finishCourt p (courtStatEntry p team act eid a.game)
        (handleStatAction act st p a)) := by
    simp only [handleNewCourtAction, hStats, hShot]
    rw [if_neg (by decide), if_neg (fun hC => Option.some_ne_none st hC.2)]
    simp only [Option.getD_some]
  obtain ⟨h1, h2, h3, _, h5⟩ := handleStatAction_spec act st p a
  refine ⟨_, hstep, ?_, ?_, ?_, ?_⟩
  · rw [finishCourt_analytics, h1]
  · intro q
    rw [finishCourt_stats, statsGet_statsSet_isSome, h2]
  · rw [finishCourt_teams, h3]
  · rw [finishCourt_isAdmin, h5]

/-- Team-stat adjustments never touch the analytics, the stats map, the
rosters or the capability. -/
theorem adjustTeamStat_frame (team : Team) (isFouls : Bool) (adj : Int)
    (eid : String) (a : App) :
    (adjustTeamStat team isFouls adj eid a).game.analytics = a.game.analytics ∧
    (adjustTeamStat team isFouls adj eid a).game.stats = a.game.stats ∧
    (adjustTeamStat team isFouls adj eid a).game.teams = a.game.teams ∧
    (adjustTeamStat team isFouls adj eid a).isAdmin = a.isAdmin := by
  unfold adjustTeamStat applyStatAdjustment
  split_ifs <;> refine ⟨?_, ?_, ?_, ?_⟩ <;> simp

/-- Analytics and frame effects of the quick-stat switch body (before the
closing `totalActions` increment): `fg2`/`fg3` add one shot and one make,
the scoring stats (`ft`/`fg2`/`fg3`) add one `totalActions` through
`addScore`; the stats map, rosters and capability are untouched. -/
theorem quickSwitch_spec (stp : String) (pts : Nat) (p : Player)
    (team? : Option Team) (st : PlayerStats) (a : App) :
    (quickSwitch stp pts p team? st a).2.game.analytics.totalShots =
      a.game.analytics.totalShots +
        (if stp = strFg2 ∨ stp = strFg3 then 1 else 0) ∧
    (quickSwitch stp pts p team? st a).2.game.analytics.madeShots =
      a.game.analytics.madeShots +
        (if stp = strFg2 ∨ stp = strFg3 then 1 else 0) ∧
    (quickSwitch stp pts p team? st a).2.game.analytics.totalActions =
      a.game.analytics.totalActions +
        (if stp = strFt ∨ stp = strFg2 ∨ stp = strFg3 then 1 else 0) ∧
    (quickSwitch stp pts p team? st a).2.game.stats = a.game.stats ∧
    (quickSwitch stp pts p team? st a).2.game.teams = a.game.teams ∧
    (quickSwitch stp pts p team? st a).2.isAdmin = a.isAdmin := by
  unfold quickSwitch
  split_ifs <;> refine ⟨?_, ?_, ?_, ?_, ?_, ?_⟩ <;> simp_all +decide <;>
    split_ifs <;> simp_all

/-- Analytics and frame effects of one admin `recordQuickStat` call on a
well-formed operation. -/
theorem recordQuickStat_spec (a : App) (stp : String) (pts : Nat)
    (p? : Option Player) (qt : Team) (eid : String) (hA : a.isAdmin = true)
    (hV : validOp a (Op.quick stp pts p? qt eid) = true) :
    (recordQuickStat stp pts p? qt eid a).game.analytics.totalShots =
      a.game.analytics.totalShots + shotInc (Op.quick stp pts p? qt eid) ∧
    (recordQuickStat stp pts p? qt eid a).game.analytics.madeShots =
      a.game.analytics.madeShots + madeInc (Op.quick stp pts p? qt eid) ∧
    (recordQuickStat stp pts p? qt eid a).game.analytics.totalActions =
      a.game.analytics.totalActions + actionInc (Op.quick stp pts p? qt eid) ∧
    (∀ q, (statsGet (recordQuickStat stp pts p? qt eid a).game.stats q).isSome =
      (statsGet a.game.stats q).isSome) ∧
    (recordQuickStat stp pts p? qt eid a).game.teams = a.game.teams ∧
    (recordQuickStat stp pts p? qt eid a).isAdmin = a.isAdmin := by
  by_cases hFT : (strContains stp strFoul || strContains stp strTimeout) = true
  · have hz1 : shotInc (Op.quick stp pts p? qt eid) = 0 := by
      simp [shotInc, hFT]
    have hz2 : madeInc (Op.quick stp pts p? qt eid) = 0 := by
      simp [madeInc, hFT]
    have hz3 : actionInc (Op.quick stp pts p? qt eid) = 0 := by
      simp [actionInc, hFT]
    rw [hz1, hz2, hz3]
    unfold recordQuickStat
    rw [hA, if_neg (by decide)]
    by_cases hg : p? = none ∧ strContains stp strTimeout = false
    · rw [if_pos hg]
      exact ⟨by omega, by omega, by omega, fun q => rfl, rfl, hA⟩
    · rw [if_neg hg, if_pos hFT]
      obtain ⟨f1, f2, f3, f4⟩ := adjustTeamStat_frame qt (strContains stp strFoul)
        (if strContains stp strPlus then 1 else -1) eid a
      refine ⟨by rw [f1]; omega, by rw [f1]; omega, by rw [f1]; omega,
        fun q => by rw [f2], f3, by rw [f4]; exact hA⟩
  · have hp' : ∃ p, p? = some p ∧ (statsGet a.game.stats p.id).isSome = true := by
      cases hpq : p? with
      | none =>
        rw [hpq] at hV
        rw [show validOp a (Op.quick stp pts none qt eid) =
          (if (strContains stp strFoul || strContains stp strTimeout) = true then
            true else false) from rfl, if_neg hFT] at hV
        exact absurd hV (by decide)
      | some p =>
        rw [hpq] at hV
        rw [show validOp a (Op.quick stp pts (some p) qt eid) =
          (if (strContains stp strFoul || strContains stp strTimeout) = true then
            true else (statsGet a.game.stats p.id).isSome) from rfl,
          if_neg hFT] at hV
        exact ⟨p, rfl, hV⟩
    obtain ⟨p, hp, hsome⟩ := hp'
    subst hp
    obtain ⟨st, hst⟩ := Option.isSome_iff_exists.mp hsome
    have hs1 : shotInc (Op.quick stp pts (some p) qt eid) =
        (if stp = strFg2 ∨ stp = strFg3 then 1 else 0) := by
      simp [shotInc, hFT]
    have hs2 : madeInc (Op.quick stp pts (some p) qt eid) =
        (if stp = strFg2 ∨ stp = strFg3 then 1 else 0) := by
      simp [madeInc, hFT]
    have hs3 : actionInc (Op.quick stp pts (some p) qt eid) =
        (if stp = strFt ∨ stp = strFg2 ∨ stp = strFg3 then 2 else 1) := by
      simp [actionInc, hFT]
    rw [hs1, hs2, hs3]
    unfold recordQuickStat
    rw [hA, if_neg (by decide),
      if_neg (fun hC => Option.noConfusion hC.1), if_neg hFT]
    simp only [hst]
    obtain ⟨q1, q2, q3, q4, q5, q6⟩ := quickSwitch_spec stp pts p
      (getPlayerTeam a.game p.id) st
      (addToUndoStack (UndoableAction.entry (quickStatEntry stp pts p
        (getPlayerTeam a.game p.id) eid a.game)) a)
    refine ⟨?_, ?_, ?_, ?_, ?_, ?_⟩
    · simp only [q1, addToUndoStack_game]
    · simp only [q2, addToUndoStack_game]
    · simp only [q3, addToUndoStack_game]
      split_ifs <;> omega
    · intro q
      simp only [statsGet_statsSet_isSome, q4, addToUndoStack_game]
    · simp only [q5, addToUndoStack_game]
    · simp only [q6, addToUndoStack_isAdmin]
      exact hA

/-- Analytics deltas of one well-formed operation, and the facts the
induction over sequences needs: the capability and the set of stats keys are
preserved. -/
theorem applyOp_spec (a : App) (op : Op) (hA : a.isAdmin = true)
    (hV : validOp a op = true) :
    ∃ a', applyOp a op = some a' ∧
      a'.game.analytics.totalShots = a.game.analytics.totalShots + shotInc op ∧
      a'.game.analytics.madeShots = a.game.analytics.madeShots + madeInc op ∧
      a'.game.analytics.totalActions = a.game.analytics.totalActions + actionInc op ∧
      a'.isAdmin = true ∧
      (∀ q, (statsGet a'.game.stats q).isSome = (statsGet a.game.stats q).isSome) := by
  cases op with
  | court p? team act eid =>
    cases p? with
    | none =>
      rw [show validOp a (Op.court none team act eid) = false from rfl] at hV
      exact absurd hV (by decide)
    | some p =>
      have hsome : (statsGet a.game.stats p.id).isSome = true := by
        rw [show validOp a (Op.court (some p) team act eid) =
          (statsGet a.game.stats p.id).isSome from rfl] at hV
        exact hV
      obtain ⟨st, hst⟩ := Option.isSome_iff_exists.mp hsome
      by_cases hSh : isShotCode act = true
      · obtain ⟨a', h0, h1, h2, h3, h4, h5, h6⟩ :=
          court_shot_step a p team act eid st hst hSh
        refine ⟨a', h0, ?_, ?_, ?_, by rw [h6]; exact hA, h4⟩
        · rw [h1, show shotInc (Op.court (some p) team act eid) = 1 from by
            simp [shotInc, hSh]]
        · rw [h2, show madeInc (Op.court (some p) team act eid) =
            (if jsStartsWith (courtOutcome act) strMake = true then 1 else 0) from by
              simp [madeInc, hSh]]
        · rw [h3, show actionInc (Op.court (some p) team act eid) =
            (if jsStartsWith (courtOutcome act) strMake = true then 1 else 0) from by
              simp [actionInc, hSh]]
      · have hSh' : isShotCode act = false := by
          revert hSh
          cases isShotCode act <;> simp
        obtain ⟨a', h0, h1, h2, h3, h4⟩ :=
          court_nonshot_step a p team act eid st hst hSh'
        refine ⟨a', h0, ?_, ?_, ?_, by rw [h4]; exact hA, h2⟩
        · rw [h1, show shotInc (Op.court (some p) team act eid) = 0 from by
            simp [shotInc, hSh']]
          omega
        · rw [h1, show madeInc (Op.court (some p) team act eid) = 0 from by
            simp [madeInc, hSh']]
          omega
        · rw [h1, show actionInc (Op.court (some p) team act eid) = 0 from by
            simp [actionInc, hSh']]
          omega
  | quick stp pts p? qt eid =>
    obtain ⟨r1, r2, r3, r4, r5, r6⟩ := recordQuickStat_spec a stp pts p? qt eid hA hV
    exact ⟨_, rfl, r1, r2, r3, by rw [r6]; exact hA, r4⟩

/-- Operation validity only reads the stats-key set, so it transports along
key-preserving steps. -/
theorem validOp_congr (a b : App) (op : Op)
    (h : ∀ q, (statsGet b.game.stats q).isSome = (statsGet a.game.stats q).isSome) :
    validOp b op = validOp a op := by
  cases op with
  | court p? team act eid =>
    cases p? with
    | none => rfl
    | some p => exact h p.id
  | quick stp pts p? qt eid =>
    cases p? with
    | none => rfl
    | some p =>
      show (if (strContains stp strFoul || strContains stp strTimeout) = true then
          true else (statsGet b.game.stats p.id).isSome) =
        (if (strContains stp strFoul || strContains stp strTimeout) = true then
          true else (statsGet a.game.stats p.id).isSome)
      by_cases hC : (strContains stp strFoul || strContains stp strTimeout) = true
      · rw [if_pos hC, if_pos hC]
      · rw [if_neg hC, if_neg hC]
        exact h p.id

/-- C3 (amended): over any admin-recorded sequence of well-formed court and
quick-stat operations, `analytics.totalShots` grows by the number of court
make/miss actions plus quick `fg2`/`fg3` presses — the quick free-throw
button is not counted — and `analytics.madeShots` grows by the number of
court makes plus quick `fg2`/`fg3` presses. -/
theorem c3_amended (ops : List Op) :
    ∀ (a a' : App), a.isAdmin = true →
      ops.all (fun op => validOp a op) = true →
      runOps a ops = some a' →
      a'.game.analytics.totalShots =
        a.game.analytics.totalShots + (ops.map shotInc).sum ∧
      a'.game.analytics.madeShots =
        a.game.analytics.madeShots + (ops.map madeInc).sum := by
  induction ops with
  | nil =>
    intro a a' _ _ h
    have h' : some a = some a' := h
    obtain rfl := Option.some.inj h'
    simp
  | cons op ops ih =>
    intro a a' hA hAll hRun
    rw [List.all_cons, Bool.and_eq_true] at hAll
    obtain ⟨hV, hRest⟩ := hAll
    obtain ⟨b, hb, s1, s2, _, hAd, hKeys⟩ := applyOp_spec a op hA hV
    rw [show runOps a (op :: ops) =
      (match applyOp a op with
        | none => none
        | some x => runOps x ops) from rfl, hb] at hRun
    have hRun' : runOps b ops = some a' := hRun
    have hRest' : ops.all (fun op => validOp b op) = true := by
      rw [List.all_eq_true] at hRest ⊢
      intro x hx
      rw [validOp_congr a b x hKeys]
      exact hRest x hx
    obtain ⟨t1, t2⟩ := ih b a' hAd hRest' hRun'
    refine ⟨?_, ?_⟩
    · rw [t1, s1, List.map_cons, List.sum_cons]
      omega
    · rw [t2, s2, List.map_cons, List.sum_cons]
      omega

def eidC3 : String := "c3"
def eidQ4 : String := "q4"
def eidW1 : String := "w1"
def eidW2 : String := "w2"
def eidW3 : String := "w3"
def eidW4 : String := "w4"

/-- C3 counterexample: a quick free throw is a shot by the claim's own count
(`claimShotCount` follows its wording), yet `recordQuickStat`'s `ft` case
never touches `totalShots`/`madeShots`: after the one-action sequence the
counters are 0 where the claim demands 1. -/
theorem c3_counterexample :
    claimShotCount [Op.quick strFt 1 (some playerA) Team.home eidC3] = 1 ∧
    (runOps scenarioApp [Op.quick strFt 1 (some playerA) Team.home eidC3]).map
      (fun x => (x.game.analytics.totalShots, x.game.analytics.madeShots)) =
      some (0, 0) ∧
    ¬ (runOps scenarioApp [Op.quick strFt 1 (some playerA) Team.home eidC3]).map
      (fun x => (x.game.analytics.totalShots, x.game.analytics.madeShots)) =
      some (1, 1) := by
  refine ⟨by decide, by rfl, by decide⟩

def opsW : List Op :=
  [Op.court (some playerA) Team.home strMake2Layup eidW1,
   Op.quick strFg3 3 (some playerA) Team.home eidW2,
   Op.court (some playerA) Team.home strMiss2Jumper eidW3,
   Op.quick strRebound 0 (some playerA) Team.home eidW4]

/-- C3 witness: a four-operation sequence — court make, quick three, court
miss, quick rebound — adds three to `totalShots` and two to `madeShots`. -/
theorem c3_amended_witness :
    (runOps scenarioApp opsW).map (fun x =>
      (x.game.analytics.totalShots, x.game.analytics.madeShots)) =
      some (scenarioApp.game.analytics.totalShots + (opsW.map shotInc).sum,
        scenarioApp.game.analytics.madeShots + (opsW.map madeInc).sum) := by
  obtain ⟨a', ha⟩ : ∃ x, runOps scenarioApp opsW = some x := ⟨_, rfl⟩
  obtain ⟨t1, t2⟩ := c3_amended opsW scenarioApp a' rfl (by decide) ha
  rw [ha, show (some a').map (fun x =>
    (x.game.analytics.totalShots, x.game.analytics.madeShots)) =
    some (a'.game.analytics.totalShots, a'.game.analytics.madeShots) from rfl]
  rw [t1, t2]

/-- C4 counterexample: a recorded court miss is a successfully applied
action, yet `totalActions` is not incremented — the only increment on the
court path sits inside `addScore`, which runs for makes alone. -/
theorem c4_counterexample :
    (applyOp scenarioApp
      (Op.court (some playerA) Team.home strMiss2Jumper eidC4)).map
      (fun x => x.game.analytics.totalActions) = some 0 ∧
    scenarioApp.game.analytics.totalActions = 0 ∧
    ¬ (applyOp scenarioApp
      (Op.court (some playerA) Team.home strMiss2Jumper eidC4)).map
      (fun x => x.game.analytics.totalActions) =
      some (scenarioApp.game.analytics.totalActions + 1) := by
  refine ⟨by rfl, by rfl, by decide⟩

/-- C4 (amended): one well-formed admin-recorded operation adds to
`analytics.totalActions` exactly `actionInc`: 1 for a court make, 0 for a
court miss or non-shot court action, 0 for a quick foul/timeout adjustment,
2 for a quick `ft`/`fg2`/`fg3` (once in `addScore` and once at the tail of
`recordQuickStat`), and 1 for every other quick stat — never uniformly one
per action. -/
theorem c4_amended (a : App) (op : Op) (a' : App) (hA : a.isAdmin = true)
    (hV : validOp a op = true) (h : applyOp a op = some a') :
    a'.game.analytics.totalActions =
      a.game.analytics.totalActions + actionInc op := by
  obtain ⟨b, hb, _, _, s3, _, _⟩ := applyOp_spec a op hA hV
  rw [hb] at h
  obtain rfl := Option.some.inj h
  exact s3

/-- C4 witness: a quick made free throw bumps `totalActions` by two. -/
theorem c4_amended_witness :
    (recordQuickStat strFt 1 (some playerA) Team.home eidQ4
      scenarioApp).game.analytics.totalActions =
      scenarioApp.game.analytics.totalActions +
        actionInc (Op.quick strFt 1 (some playerA) Team.home eidQ4) := by
  exact c4_amended scenarioApp (Op.quick strFt 1 (some playerA) Team.home eidQ4)
    _ rfl (by decide) rfl
